import Mathlib

/-!
Shallow embedding of the tax-logic-core calculation engine
(src/calculations/calculateTax.js and the policy resolver in src/policy.js).

JS numbers are modelled as exact rationals (ℚ); `parseFloat(x) || d` on an
optional numeric form field is modelled by `numOr`; object-lookup-with-
single-fallback tables are modelled by total functions on status strings.
The system clock read by `calculateAge` (`new Date()`) is made an explicit
`today : SimpleDate` parameter of the pipeline.
-/

namespace TaxLogic

/-- Models JS `parseFloat(form.x) || d`: an absent field, like a parsed 0
(both falsy), falls back to `d`. -/
def numOr (x : Option ℚ) (d : ℚ) : ℚ :=
  match x with
  | none => d
  | some v => if v = 0 then d else v

/-- Date triple used for the age computation (`new Date()` / birth date). -/
structure SimpleDate where
  year : Int
  month : Int
  day : Int
deriving DecidableEq

structure ScheduleC where
  netProfit : Option ℚ := none
  grossReceipts : Option ℚ := none
  expenses : Option ℚ := none
deriving DecidableEq

structure ScheduleE where
  netIncome : Option ℚ := none
  rentalIncome : Option ℚ := none
  rentalExpenses : Option ℚ := none
deriving DecidableEq

structure ScheduleD where
  shortTermGain : Option ℚ := none
  shortTermLoss : Option ℚ := none
  longTermGain : Option ℚ := none
  longTermLoss : Option ℚ := none
deriving DecidableEq

structure ScheduleK1 where
  guaranteedPayments : Option ℚ := none
  ordinaryIncome : Option ℚ := none
deriving DecidableEq

structure Dependent where
  qualifyingChild : Bool := false
  childTaxCredit : Bool := false
deriving DecidableEq

/-- The flat Tax Form field mapping consumed by `calculateTotalTax`. -/
structure TaxForm where
  filingStatus : Option String := none
  totalWages : Option ℚ := none
  taxableInterest : Option ℚ := none
  ordinaryDividends : Option ℚ := none
  qualifiedDividends : Option ℚ := none
  taxableIra : Option ℚ := none
  taxablePensions : Option ℚ := none
  taxableSocialSecurity : Option ℚ := none
  capitalGainLoss : Option ℚ := none
  otherIncome : Option ℚ := none
  hasScheduleC : Bool := false
  scheduleC : Option ScheduleC := none
  hasScheduleE : Bool := false
  scheduleE : Option ScheduleE := none
  hasScheduleD : Bool := false
  scheduleD : Option ScheduleD := none
  educatorExpenses : Option ℚ := none
  hsaDeduction : Option ℚ := none
  selfEmploymentTaxDeduction : Option ℚ := none
  selfEmployedSEPSimple : Option ℚ := none
  selfEmployedHealthInsurance : Option ℚ := none
  penaltyEarlyWithdrawal : Option ℚ := none
  alimonyPaid : Option ℚ := none
  iraDeduction : Option ℚ := none
  studentLoanInterest : Option ℚ := none
  tipIncome : Option ℚ := none
  overtimeIncome : Option ℚ := none
  autoLoanInterest : Option ℚ := none
  birthDate : Option SimpleDate := none
  useObbba2025 : Option Bool := none
  stateLocalTaxes : Option ℚ := none
  realEstateTaxes : Option ℚ := none
  medicalExpenses : Option ℚ := none
  mortgageInterest : Option ℚ := none
  charityCash : Option ℚ := none
  charityNonCash : Option ℚ := none
  casualtyLosses : Option ℚ := none
  otherItemized : Option ℚ := none
  deductionType : Option String := none
  scheduleK1 : Option ScheduleK1 := none
  partnershipIncome : Option ℚ := none
  sCorpIncome : Option ℚ := none
  dependents : List Dependent := []
  childTaxCredit : Option ℚ := none
  creditOtherDependents : Option ℚ := none
  educationCredits : Option ℚ := none
  retirementSaversCredit : Option ℚ := none
  childCareCredit : Option ℚ := none
  earnedIncomeCredit : Option ℚ := none
  otherCredits : Option ℚ := none
  totalWithholding : Option ℚ := none
  estimatedTaxPayments : Option ℚ := none
  amountAppliedFromPriorYear : Option ℚ := none
deriving DecidableEq

/-- The Tax Result record returned by `calculateTotalTax`. -/
structure TaxResult where
  totalIncome : ℚ
  totalAdjustments : ℚ
  agi : ℚ
  deduction : ℚ
  taxableIncome : ℚ
  regularTax : ℚ
  capitalGainsTax : ℚ
  seTax : ℚ
  totalTaxBeforeCredits : ℚ
  totalCredits : ℚ
  finalTax : ℚ
  totalPayments : ℚ
  refundOrOwed : ℚ
  isRefund : Bool
deriving DecidableEq

/-! ## Section 1-3 data tables (TAX_BRACKETS_2025, STANDARD_DEDUCTIONS_2025,
CAPITAL_GAINS_BRACKETS_2025) -/

def TAX_BRACKETS_2025_single : List (ℚ × ℚ) :=
  [(0, 0.10), (11925, 0.12), (48475, 0.22), (103350, 0.24),
   (197300, 0.32), (250525, 0.35), (626350, 0.37)]

def TAX_BRACKETS_2025_married : List (ℚ × ℚ) :=
  [(0, 0.10), (23850, 0.12), (96950, 0.22), (206700, 0.24),
   (394600, 0.32), (501050, 0.35), (751600, 0.37)]

def TAX_BRACKETS_2025_marriedSeparate : List (ℚ × ℚ) :=
  [(0, 0.10), (11925, 0.12), (48475, 0.22), (103350, 0.24),
   (197300, 0.32), (250525, 0.35), (375800, 0.37)]

def TAX_BRACKETS_2025_head : List (ℚ × ℚ) :=
  [(0, 0.10), (17000, 0.12), (64850, 0.22), (103350, 0.24),
   (197300, 0.32), (250500, 0.35), (626350, 0.37)]

def TAX_BRACKETS_2025_widow : List (ℚ × ℚ) :=
  [(0, 0.10), (23850, 0.12), (96950, 0.22), (206700, 0.24),
   (394600, 0.32), (501050, 0.35), (751600, 0.37)]

/-- Models `TAX_BRACKETS_2025[filingStatus] || TAX_BRACKETS_2025.single` for
keys that are not inherited `Object.prototype` member names (there the JS
lookup returns a truthy inherited member and never falls back; see
`jsLookupOr` and `TAX_BRACKETS_2025_table`). -/
def taxBracketsFor (fs : String) : List (ℚ × ℚ) :=
  if fs = "single" then TAX_BRACKETS_2025_single
  else if fs = "married" then TAX_BRACKETS_2025_married
  else if fs = "marriedSeparate" then TAX_BRACKETS_2025_marriedSeparate
  else if fs = "head" then TAX_BRACKETS_2025_head
  else if fs = "widow" then TAX_BRACKETS_2025_widow
  else TAX_BRACKETS_2025_single

/-- Models `STANDARD_DEDUCTIONS_2025[filingStatus] || .single` for keys that
are not inherited `Object.prototype` member names (there the JS lookup
returns a truthy inherited member and never falls back; see `jsLookupOr`
and `STANDARD_DEDUCTIONS_2025_table`). -/
def standardDeductionFor (fs : String) : ℚ :=
  if fs = "single" then 15700
  else if fs = "married" then 31400
  else if fs = "marriedSeparate" then 15700
  else if fs = "head" then 23500
  else if fs = "widow" then 31400
  else 15700

def CAPITAL_GAINS_BRACKETS_2025_single : List (ℚ × ℚ) :=
  [(0, 0), (48350, 0.15), (533400, 0.20)]

def CAPITAL_GAINS_BRACKETS_2025_married : List (ℚ × ℚ) :=
  [(0, 0), (96700, 0.15), (600050, 0.20)]

def CAPITAL_GAINS_BRACKETS_2025_marriedSeparate : List (ℚ × ℚ) :=
  [(0, 0), (48350, 0.15), (300025, 0.20)]

def CAPITAL_GAINS_BRACKETS_2025_head : List (ℚ × ℚ) :=
  [(0, 0), (64750, 0.15), (566700, 0.20)]

def CAPITAL_GAINS_BRACKETS_2025_widow : List (ℚ × ℚ) :=
  [(0, 0), (96700, 0.15), (600050, 0.20)]

/-- Models `CAPITAL_GAINS_BRACKETS_2025[filingStatus] || .single` for keys
that are not inherited `Object.prototype` member names (there the JS lookup
returns a truthy inherited member and never falls back; see `jsLookupOr`
and `CAPITAL_GAINS_BRACKETS_2025_table`). -/
def capitalGainsBracketsFor (fs : String) : List (ℚ × ℚ) :=
  if fs = "single" then CAPITAL_GAINS_BRACKETS_2025_single
  else if fs = "married" then CAPITAL_GAINS_BRACKETS_2025_married
  else if fs = "marriedSeparate" then CAPITAL_GAINS_BRACKETS_2025_marriedSeparate
  else if fs = "head" then CAPITAL_GAINS_BRACKETS_2025_head
  else if fs = "widow" then CAPITAL_GAINS_BRACKETS_2025_widow
  else CAPITAL_GAINS_BRACKETS_2025_single

/-! ## Section 4: tax calculation functions -/

/-- The bracket walk (body of the `for` loop of `calculateBracketTax`):
`nextLimit` is the next entry's threshold or plus-infinity for the last
bracket, and the loop breaks at the first bracket containing the income. -/
def bracketLoop (income : ℚ) : List (ℚ × ℚ) → ℚ
  | [] => 0
  | (limit, rate) :: rest =>
    match rest with
    | [] => (income - limit) * rate
    | (nextLimit, _) :: _ =>
      if nextLimit < income then (nextLimit - limit) * rate + bracketLoop income rest
      else (income - limit) * rate

/-- Progressive marginal tax over a bracket schedule (`calculateBracketTax`). -/
def calculateBracketTax (income : ℚ) (brackets : List (ℚ × ℚ)) : ℚ :=
  if income ≤ 0 then 0 else max 0 (bracketLoop income brackets)

/-- The reverse-order stacking walk of `calculateCapitalGainsTax`: the
bracket list is consumed highest-first with accumulator (tax, remaining). -/
def cgLoop (taxableIncome totalIncome : ℚ) : List (ℚ × ℚ) → ℚ × ℚ → ℚ × ℚ
  | [], s => s
  | (threshold, rate) :: rest, (tax, remaining) =>
    if 0 < remaining then
      if threshold < totalIncome then
        let gainsTaxedAtThisRate := min remaining (totalIncome - max taxableIncome threshold)
        cgLoop taxableIncome totalIncome rest
          (tax + gainsTaxedAtThisRate * rate, remaining - gainsTaxedAtThisRate)
      else cgLoop taxableIncome totalIncome rest (tax, remaining)
    else (tax, remaining)

/-- Capital gains tax by the stacking method (`calculateCapitalGainsTax`). -/
def calculateCapitalGainsTax (taxableIncome capitalGains : ℚ) (filingStatus : String) : ℚ :=
  if capitalGains ≤ 0 then 0
  else
    let brackets := capitalGainsBracketsFor filingStatus
    let totalIncome := taxableIncome + capitalGains
    let result := cgLoop taxableIncome totalIncome brackets.reverse (0, capitalGains)
    max 0 result.1

structure SETaxResult where
  tax : ℚ
  deduction : ℚ
deriving DecidableEq

/-- Additional-Medicare thresholds lookup (`thresholds[filingStatus] ||
200000`) for keys that are not inherited `Object.prototype` member names
(there the JS lookup returns a truthy inherited member and never falls
back; see `jsLookupOr` and `SE_ADDL_MEDICARE_THRESHOLDS_table`). -/
def seAddlMedicareThresholdFor (fs : String) : ℚ :=
  if fs = "single" then 200000
  else if fs = "head" then 200000
  else if fs = "married" then 250000
  else if fs = "widow" then 250000
  else if fs = "marriedSeparate" then 125000
  else 200000

/-- Self-employment tax and its deductible half (`calculateSelfEmploymentTax`). -/
def calculateSelfEmploymentTax (netSelfEmploymentIncome : ℚ) (wages : ℚ)
    (filingStatus : String) : SETaxResult :=
  if netSelfEmploymentIncome ≤ 0 then { tax := 0, deduction := 0 }
  else
    let taxableBase := netSelfEmploymentIncome * 0.9235
    let ssWageBase : ℚ := 176100
    let remainingSSBase := max 0 (ssWageBase - min ssWageBase wages)
    let ssTaxableSE := min taxableBase remainingSSBase
    let ssTax := ssTaxableSE * 0.124
    let medicareTax := taxableBase * 0.029
    let threshold := seAddlMedicareThresholdFor filingStatus
    let addlBase := max 0 (taxableBase - max 0 (threshold - wages))
    let additionalMedicare := addlBase * 0.009
    let totalTax := ssTax + medicareTax + additionalMedicare
    { tax := totalTax, deduction := totalTax * 0.5 }

/-- NIIT MAGI thresholds table of `calculateNIIT` (`thresholds[filingStatus]
|| 200000`) for keys that are not inherited `Object.prototype` member names
(there the JS lookup returns a truthy inherited member and never falls
back; see `jsLookupOr` and `NIIT_THRESHOLDS_table`). -/
def niitThresholdFor (fs : String) : ℚ :=
  if fs = "single" then 200000
  else if fs = "married" then 250000
  else if fs = "marriedSeparate" then 125000
  else if fs = "head" then 200000
  else if fs = "widow" then 250000
  else 200000

/-- Net Investment Income Tax (`calculateNIIT`). -/
def calculateNIIT (agi netInvestmentIncome : ℚ) (filingStatus : String) : ℚ :=
  let threshold := niitThresholdFor filingStatus
  let excessAGI := max 0 (agi - threshold)
  let taxableNII := min excessAGI netInvestmentIncome
  taxableNII * 0.038

/-! ## Policy resolver (src/policy.js) -/

/-- Models `getPolicyFlags(form).useObbba2025`: explicit flag if present,
defaulting to OBBBA 2025 being active. -/
def getPolicyFlags (form : TaxForm) : Bool :=
  form.useObbba2025.getD true

/-- Models `getSaltCap(filingStatus, form)`. -/
def getSaltCap (fs : String) (form : TaxForm) : ℚ :=
  if getPolicyFlags form then (if fs = "marriedSeparate" then 20000 else 40000)
  else (if fs = "marriedSeparate" then 5000 else 10000)

/-! ## Section 5: the orchestrator `calculateTotalTax`, decomposed into one
definition per local constant of the source in source order. -/

/-- STEP 1: `form.filingStatus || 'single'` (the empty string is falsy in JS). -/
def filingStatusOf (form : TaxForm) : String :=
  match form.filingStatus with
  | none => "single"
  | some s => if s = "" then "single" else s

/-- Schedule C net profit: parsed value if present, else receipts minus expenses. -/
def scheduleCOf (form : TaxForm) : ℚ :=
  if form.hasScheduleC then
    match form.scheduleC with
    | some sc =>
      match sc.netProfit with
      | some _ => numOr sc.netProfit 0
      | none => numOr sc.grossReceipts 0 - numOr sc.expenses 0
    | none => 0
  else 0

/-- Schedule E net income: parsed value if present, else rental income minus expenses. -/
def scheduleEOf (form : TaxForm) : ℚ :=
  if form.hasScheduleE then
    match form.scheduleE with
    | some se =>
      match se.netIncome with
      | some _ => numOr se.netIncome 0
      | none => numOr se.rentalIncome 0 - numOr se.rentalExpenses 0
    | none => 0
  else 0

/-- The four Schedule D components (shortTermGain, shortTermLoss,
longTermGain, longTermLoss), losses taken by absolute value. -/
structure CapParts where
  shortTermGain : ℚ
  shortTermLoss : ℚ
  longTermGain : ℚ
  longTermLoss : ℚ
deriving DecidableEq

/-- The `else if (form.capitalGainLoss !== undefined)` branch of the
Schedule D block: a manual net figure becomes a long-term gain or loss. -/
def capPartsFallback (form : TaxForm) : CapParts :=
  match form.capitalGainLoss with
  | some _ =>
    let net := numOr form.capitalGainLoss 0
    if 0 ≤ net then
      { shortTermGain := 0, shortTermLoss := 0, longTermGain := net, longTermLoss := 0 }
    else
      { shortTermGain := 0, shortTermLoss := 0, longTermGain := 0, longTermLoss := |net| }
  | none =>
    { shortTermGain := 0, shortTermLoss := 0, longTermGain := 0, longTermLoss := 0 }

def capPartsOf (form : TaxForm) : CapParts :=
  if form.hasScheduleD then
    match form.scheduleD with
    | some sd =>
      { shortTermGain := numOr sd.shortTermGain 0
        shortTermLoss := |numOr sd.shortTermLoss 0|
        longTermGain := numOr sd.longTermGain 0
        longTermLoss := |numOr sd.longTermLoss 0| }
    | none => capPartsFallback form
  else capPartsFallback form

def netShortTermOf (form : TaxForm) : ℚ :=
  (capPartsOf form).shortTermGain - (capPartsOf form).shortTermLoss

def netLongTermOf (form : TaxForm) : ℚ :=
  (capPartsOf form).longTermGain - (capPartsOf form).longTermLoss

def netCapitalOf (form : TaxForm) : ℚ :=
  netShortTermOf form + netLongTermOf form

/-- The 3000 (1500 MFS) capital-loss limit against ordinary income. -/
def capLossLimitFor (fs : String) : ℚ :=
  if fs = "marriedSeparate" then 1500 else 3000

def capLossLimitOf (form : TaxForm) : ℚ :=
  capLossLimitFor (filingStatusOf form)

def cappedCapitalForAGIOf (form : TaxForm) : ℚ :=
  if 0 ≤ netCapitalOf form then netCapitalOf form
  else -(min (capLossLimitOf form) |netCapitalOf form|)

/-- TOTAL INCOME (Form 1040 Line 9). -/
def totalIncomeOf (form : TaxForm) : ℚ :=
  numOr form.totalWages 0 + numOr form.taxableInterest 0 + numOr form.ordinaryDividends 0 +
    numOr form.taxableIra 0 + numOr form.taxablePensions 0 +
    numOr form.taxableSocialSecurity 0 + numOr form.otherIncome 0 +
    scheduleCOf form + scheduleEOf form + cappedCapitalForAGIOf form

/-- The `calculateAge` helper: `today` is the system clock read by `new Date()`. -/
def calculateAge (today : SimpleDate) (birthDate : Option SimpleDate) : Int :=
  match birthDate with
  | none => 40
  | some birth =>
    let age := today.year - birth.year
    let monthDiff := today.month - birth.month
    if monthDiff < 0 ∨ (monthDiff = 0 ∧ today.day < birth.day) then age - 1 else age

/-- Phase-out factor for the new OBBBA deductions (`getPhaseOutPct`). -/
def getPhaseOutPct (filingStatus : String) (income : ℚ) : ℚ :=
  let limitStart : ℚ := if filingStatus = "married" then 300000 else 150000
  let limitEnd : ℚ := if filingStatus = "married" then 550000 else 400000
  if income ≤ limitStart then 1
  else if limitEnd ≤ income then 0
  else 1 - (income - limitStart) / (limitEnd - limitStart)

/-- Tentative adjustments used for the phase-out MAGI (before the new deductions). -/
def tentativeAdjustmentsOf (form : TaxForm) : ℚ :=
  numOr form.educatorExpenses 0 + numOr form.hsaDeduction 0 +
    numOr form.selfEmploymentTaxDeduction 0 + numOr form.selfEmployedSEPSimple 0 +
    numOr form.selfEmployedHealthInsurance 0 + numOr form.penaltyEarlyWithdrawal 0 +
    numOr form.alimonyPaid 0 + numOr form.iraDeduction 0 +
    numOr form.studentLoanInterest 0

def magiForPhaseOutOf (form : TaxForm) : ℚ :=
  totalIncomeOf form - tentativeAdjustmentsOf form

def phaseOutPctOf (form : TaxForm) : ℚ :=
  getPhaseOutPct (filingStatusOf form) (magiForPhaseOutOf form)

def tipsDeductionOf (form : TaxForm) : ℚ :=
  if getPolicyFlags form then min (numOr form.tipIncome 0) 25000 * phaseOutPctOf form else 0

def overtimeDeductionOf (form : TaxForm) : ℚ :=
  if getPolicyFlags form then min (numOr form.overtimeIncome 0) 12500 * phaseOutPctOf form else 0

def autoLoanDeductionOf (form : TaxForm) : ℚ :=
  if getPolicyFlags form then min (numOr form.autoLoanInterest 0) 10000 else 0

def seniorBonusOf (today : SimpleDate) (form : TaxForm) : ℚ :=
  if getPolicyFlags form ∧ 65 ≤ calculateAge today form.birthDate then 6000 else 0

def wagesForSETOf (form : TaxForm) : ℚ :=
  numOr form.totalWages 0

/-- The single self-employment-tax computation shared by the adjustments
(its `deduction`) and Schedule 2 (its `tax`). -/
def seTaxComputedOf (form : TaxForm) : SETaxResult :=
  calculateSelfEmploymentTax (scheduleCOf form) (wagesForSETOf form) (filingStatusOf form)

/-- ADJUSTMENTS TO INCOME (Schedule 1 Part II), including the larger of the
caller-supplied and computed SE-tax deduction and the new OBBBA deductions. -/
def totalAdjustmentsOf (today : SimpleDate) (form : TaxForm) : ℚ :=
  numOr form.educatorExpenses 0 + numOr form.hsaDeduction 0 +
    max (numOr form.selfEmploymentTaxDeduction 0) (seTaxComputedOf form).deduction +
    numOr form.selfEmployedSEPSimple 0 + numOr form.selfEmployedHealthInsurance 0 +
    numOr form.penaltyEarlyWithdrawal 0 + numOr form.alimonyPaid 0 +
    numOr form.iraDeduction 0 + numOr form.studentLoanInterest 0 +
    tipsDeductionOf form + overtimeDeductionOf form +
    autoLoanDeductionOf form + seniorBonusOf today form

def agiOf (today : SimpleDate) (form : TaxForm) : ℚ :=
  totalIncomeOf form - totalAdjustmentsOf today form

def standardDeductionOf (form : TaxForm) : ℚ :=
  standardDeductionFor (filingStatusOf form)

def actualSaltOf (form : TaxForm) : ℚ :=
  min (numOr form.stateLocalTaxes 0 + numOr form.realEstateTaxes 0)
    (getSaltCap (filingStatusOf form) form)

def medicalDeductibleOf (today : SimpleDate) (form : TaxForm) : ℚ :=
  max 0 (numOr form.medicalExpenses 0 - agiOf today form * 0.075)

def itemizedTotalOf (today : SimpleDate) (form : TaxForm) : ℚ :=
  medicalDeductibleOf today form + actualSaltOf form + numOr form.mortgageInterest 0 +
    numOr form.charityCash 0 + numOr form.charityNonCash 0 +
    numOr form.casualtyLosses 0 + numOr form.otherItemized 0

/-- The caller explicitly selects itemized; anything else takes the standard deduction. -/
def deductionOf (today : SimpleDate) (form : TaxForm) : ℚ :=
  if form.deductionType = some "itemized" then itemizedTotalOf today form
  else standardDeductionOf form

/-- QBI deduction block (IRC §199A, simplified). -/
def qbiDeductionOf (today : SimpleDate) (form : TaxForm) : ℚ :=
  let guaranteedPayments := numOr (form.scheduleK1.bind ScheduleK1.guaranteedPayments) 0
  let partnershipIncome :=
    numOr form.partnershipIncome (numOr (form.scheduleK1.bind ScheduleK1.ordinaryIncome) 0)
  let sCorpIncome := numOr form.sCorpIncome 0
  let qbiEligible := max 0 (scheduleCOf form) +
    max 0 (partnershipIncome + sCorpIncome - guaranteedPayments)
  if 0 < qbiEligible then
    let tentativeQBI := qbiEligible * 0.20
    let taxableBeforeQBI := max 0 (agiOf today form - deductionOf today form)
    let netCapGainForLimit := max 0 (netLongTermOf form) + max 0 (numOr form.qualifiedDividends 0)
    let lim := (taxableBeforeQBI - netCapGainForLimit) * 0.20
    min tentativeQBI (max 0 lim)
  else 0

def taxableIncomeOf (today : SimpleDate) (form : TaxForm) : ℚ :=
  max 0 (agiOf today form - deductionOf today form - qbiDeductionOf today form)

def totalQualifiedIncomeOf (form : TaxForm) : ℚ :=
  numOr form.qualifiedDividends 0 + max 0 (netLongTermOf form)

def ordinaryTaxableIncomeOf (today : SimpleDate) (form : TaxForm) : ℚ :=
  max 0 (taxableIncomeOf today form - totalQualifiedIncomeOf form)

def regularTaxOf (today : SimpleDate) (form : TaxForm) : ℚ :=
  calculateBracketTax (ordinaryTaxableIncomeOf today form) (taxBracketsFor (filingStatusOf form))

def capitalGainsTaxOf (today : SimpleDate) (form : TaxForm) : ℚ :=
  calculateCapitalGainsTax (ordinaryTaxableIncomeOf today form) (totalQualifiedIncomeOf form)
    (filingStatusOf form)

def seTaxOf (form : TaxForm) : ℚ :=
  (seTaxComputedOf form).tax

def netPositiveCapOf (form : TaxForm) : ℚ :=
  max 0 (netCapitalOf form)

def investmentIncomeOf (form : TaxForm) : ℚ :=
  numOr form.taxableInterest 0 + numOr form.ordinaryDividends 0 +
    netPositiveCapOf form + scheduleEOf form

def niitOf (today : SimpleDate) (form : TaxForm) : ℚ :=
  calculateNIIT (agiOf today form) (investmentIncomeOf form) (filingStatusOf form)

def totalTaxBeforeCreditsOf (today : SimpleDate) (form : TaxForm) : ℚ :=
  regularTaxOf today form + capitalGainsTaxOf today form + seTaxOf form + niitOf today form

def qualifyingChildrenOf (form : TaxForm) : Nat :=
  (form.dependents.filter (fun d => d.qualifyingChild && d.childTaxCredit)).length

def otherDependentsOf (form : TaxForm) : Nat :=
  (form.dependents.filter (fun d => !d.qualifyingChild)).length

def estimatedChildCreditOf (form : TaxForm) : ℚ :=
  (qualifyingChildrenOf form : ℚ) * 2000

def estimatedOtherDependentsCreditOf (form : TaxForm) : ℚ :=
  (otherDependentsOf form : ℚ) * 500

def totalCreditsOf (form : TaxForm) : ℚ :=
  numOr form.childTaxCredit (estimatedChildCreditOf form) +
    numOr form.creditOtherDependents (estimatedOtherDependentsCreditOf form) +
    numOr form.educationCredits 0 + numOr form.retirementSaversCredit 0 +
    numOr form.childCareCredit 0 + numOr form.earnedIncomeCredit 0 +
    numOr form.otherCredits 0

def nonRefundableCreditsOf (form : TaxForm) : ℚ :=
  numOr form.childTaxCredit (estimatedChildCreditOf form) +
    numOr form.creditOtherDependents (estimatedOtherDependentsCreditOf form) +
    numOr form.educationCredits 0 + numOr form.retirementSaversCredit 0 +
    numOr form.childCareCredit 0

def refundableCreditsOf (form : TaxForm) : ℚ :=
  numOr form.earnedIncomeCredit 0 + numOr form.otherCredits 0

def taxAfterNonRefundableOf (today : SimpleDate) (form : TaxForm) : ℚ :=
  max 0 (totalTaxBeforeCreditsOf today form - nonRefundableCreditsOf form)

def finalTaxOf (today : SimpleDate) (form : TaxForm) : ℚ :=
  taxAfterNonRefundableOf today form - refundableCreditsOf form

def totalPaymentsOf (form : TaxForm) : ℚ :=
  numOr form.totalWithholding 0 + numOr form.estimatedTaxPayments 0 +
    numOr form.amountAppliedFromPriorYear 0

def refundOrOwedOf (today : SimpleDate) (form : TaxForm) : ℚ :=
  totalPaymentsOf form - finalTaxOf today form

/-- The main pipeline (`calculateTotalTax`), with the system clock explicit. -/
def calculateTotalTax (today : SimpleDate) (form : TaxForm) : TaxResult :=
  { totalIncome := totalIncomeOf form
    totalAdjustments := totalAdjustmentsOf today form
    agi := agiOf today form
    deduction := deductionOf today form
    taxableIncome := taxableIncomeOf today form
    regularTax := regularTaxOf today form
    capitalGainsTax := capitalGainsTaxOf today form
    seTax := seTaxOf form
    totalTaxBeforeCredits := totalTaxBeforeCreditsOf today form
    totalCredits := totalCreditsOf form
    finalTax := finalTaxOf today form
    totalPayments := totalPaymentsOf form
    refundOrOwed := refundOrOwedOf today form
    isRefund := decide (0 ≤ refundOrOwedOf today form) }

/-- What-if variant (`calculateTaxWithOverrides` shallow-merges overrides);
modelled by applying a form-to-form override function before computing. -/
def calculateTaxWithOverrides (today : SimpleDate) (form : TaxForm)
    (overrides : TaxForm → TaxForm) : TaxResult :=
  calculateTotalTax today (overrides form)

/-! ## Concrete inputs used by witnesses and counterexamples -/

/-- A fixed value for the system clock. -/
def d0 : SimpleDate := ⟨2025, 10, 12⟩

/-- High-income single filer with auto-loan interest, law-version toggle on. -/
def formAuto : TaxForm :=
  { totalWages := some 500000, autoLoanInterest := some 8000, useObbba2025 := some true }

/-- A form whose only entry is a 10000 net capital loss. -/
def formCapLoss : TaxForm := { capitalGainLoss := some (-10000) }

/-- A filer born June 15, 1960 (turns 65 on June 15, 2025). -/
def formSenior : TaxForm := { birthDate := some ⟨1960, 6, 15⟩ }

/-- The empty form: every field absent. -/
def formEmpty : TaxForm := {}

/-! ## Derived definitions used by the verification -/

/-- Phase-out floor of the OBBBA deductions per filing status. -/
def phaseOutStartFor (fs : String) : ℚ :=
  if fs = "married" then 300000 else 150000

/-- Phase-out ceiling of the OBBBA deductions per filing status. -/
def phaseOutEndFor (fs : String) : ℚ :=
  if fs = "married" then 550000 else 400000

/-- Non-negativity of the form's numeric inputs: every adjustment, itemized,
investment-income, credit, and payment field parses to a non-negative value.
Capital gain/loss, Schedule C and Schedule E net figures may still be losses
(those are not constrained here). -/
def NonnegInputs (form : TaxForm) : Prop :=
  0 ≤ numOr form.educatorExpenses 0 ∧ 0 ≤ numOr form.hsaDeduction 0 ∧
  0 ≤ numOr form.selfEmployedSEPSimple 0 ∧ 0 ≤ numOr form.selfEmployedHealthInsurance 0 ∧
  0 ≤ numOr form.penaltyEarlyWithdrawal 0 ∧ 0 ≤ numOr form.alimonyPaid 0 ∧
  0 ≤ numOr form.iraDeduction 0 ∧ 0 ≤ numOr form.studentLoanInterest 0 ∧
  0 ≤ numOr form.tipIncome 0 ∧ 0 ≤ numOr form.overtimeIncome 0 ∧
  0 ≤ numOr form.autoLoanInterest 0 ∧
  0 ≤ numOr form.stateLocalTaxes 0 ∧ 0 ≤ numOr form.realEstateTaxes 0 ∧
  0 ≤ numOr form.mortgageInterest 0 ∧ 0 ≤ numOr form.charityCash 0 ∧
  0 ≤ numOr form.charityNonCash 0 ∧ 0 ≤ numOr form.casualtyLosses 0 ∧
  0 ≤ numOr form.otherItemized 0 ∧
  0 ≤ numOr form.taxableInterest 0 ∧ 0 ≤ numOr form.ordinaryDividends 0 ∧
  0 ≤ numOr form.childTaxCredit 0 ∧ 0 ≤ numOr form.creditOtherDependents 0 ∧
  0 ≤ numOr form.educationCredits 0 ∧ 0 ≤ numOr form.retirementSaversCredit 0 ∧
  0 ≤ numOr form.childCareCredit 0 ∧ 0 ≤ numOr form.earnedIncomeCredit 0 ∧
  0 ≤ numOr form.otherCredits 0 ∧
  0 ≤ numOr form.totalWithholding 0 ∧ 0 ≤ numOr form.estimatedTaxPayments 0 ∧
  0 ≤ numOr form.amountAppliedFromPriorYear 0

/-- A form whose only entry is a Schedule E net loss of 100000. -/
def formSchedELoss : TaxForm :=
  { hasScheduleE := true, scheduleE := some { netIncome := some (-100000) } }

/-- The itemizing form with an unrecognized filing-status string. -/
def formWeirdStatus : TaxForm :=
  { deductionType := some "itemized", stateLocalTaxes := some 20000,
    filingStatus := some "headOfHousehold" }

/-- Member names every plain JS object literal inherits from
`Object.prototype`: a property access with one of these keys returns a
truthy inherited member instead of `undefined`. -/
def OBJECT_PROTOTYPE_MEMBERS : List String :=
  ["constructor", "hasOwnProperty", "isPrototypeOf", "propertyIsEnumerable",
   "toLocaleString", "toString", "valueOf", "__proto__", "__defineGetter__",
   "__defineSetter__", "__lookupGetter__", "__lookupSetter__"]

/-- Outcome of a JS property access on an object literal: an own value, a
truthy member inherited from `Object.prototype`, or `undefined`. -/
inductive JsLookup (α : Type) where
  | own (a : α)
  | inherited
  | undef
deriving DecidableEq

/-- JS property access `TABLE[key]` on an object literal with the given own
properties: the own value if the key is an own property, else the inherited
`Object.prototype` member, else `undefined`. -/
def jsObjectGet {α : Type} : List (String × α) → String → JsLookup α
  | [], key =>
    if key ∈ OBJECT_PROTOTYPE_MEMBERS then JsLookup.inherited else JsLookup.undef
  | (k, v) :: rest, key => if key = k then JsLookup.own v else jsObjectGet rest key

/-- JS `TABLE[key] || fallback`: the fallback is taken only when the lookup
is falsy (`undefined`); a truthy inherited `Object.prototype` member
short-circuits the `||`, so the expression is the non-numeric member itself
and no fallback to the single-filer value happens. -/
def jsLookupOr {α : Type} (table : List (String × α)) (key : String) (fallback : α) :
    JsLookup α :=
  match jsObjectGet table key with
  | JsLookup.own v => JsLookup.own v
  | JsLookup.inherited => JsLookup.inherited
  | JsLookup.undef => JsLookup.own fallback

/-- Own properties of the `TAX_BRACKETS_2025` object literal, in source order. -/
def TAX_BRACKETS_2025_table : List (String × List (ℚ × ℚ)) :=
  [("single", TAX_BRACKETS_2025_single), ("married", TAX_BRACKETS_2025_married),
   ("marriedSeparate", TAX_BRACKETS_2025_marriedSeparate),
   ("head", TAX_BRACKETS_2025_head), ("widow", TAX_BRACKETS_2025_widow)]

/-- Own properties of the `STANDARD_DEDUCTIONS_2025` object literal. -/
def STANDARD_DEDUCTIONS_2025_table : List (String × ℚ) :=
  [("single", 15700), ("married", 31400), ("marriedSeparate", 15700),
   ("head", 23500), ("widow", 31400)]

/-- Own properties of the `CAPITAL_GAINS_BRACKETS_2025` object literal. -/
def CAPITAL_GAINS_BRACKETS_2025_table : List (String × List (ℚ × ℚ)) :=
  [("single", CAPITAL_GAINS_BRACKETS_2025_single),
   ("married", CAPITAL_GAINS_BRACKETS_2025_married),
   ("marriedSeparate", CAPITAL_GAINS_BRACKETS_2025_marriedSeparate),
   ("head", CAPITAL_GAINS_BRACKETS_2025_head),
   ("widow", CAPITAL_GAINS_BRACKETS_2025_widow)]

/-- Own properties of the Additional-Medicare `thresholds` object literal in
`calculateSelfEmploymentTax`, in source order. -/
def SE_ADDL_MEDICARE_THRESHOLDS_table : List (String × ℚ) :=
  [("single", 200000), ("head", 200000), ("married", 250000),
   ("widow", 250000), ("marriedSeparate", 125000)]

/-- Own properties of the `thresholds` object literal in `calculateNIIT`. -/
def NIIT_THRESHOLDS_table : List (String × ℚ) :=
  [("single", 200000), ("married", 250000), ("marriedSeparate", 125000),
   ("head", 200000), ("widow", 250000)]

/-- The nine pre-OBBBA addends of the adjustments sum (none depends on the
law-version toggle). -/
def adjustmentsBaseOf (form : TaxForm) : ℚ :=
  numOr form.educatorExpenses 0 + numOr form.hsaDeduction 0 +
    max (numOr form.selfEmploymentTaxDeduction 0) (seTaxComputedOf form).deduction +
    numOr form.selfEmployedSEPSimple 0 + numOr form.selfEmployedHealthInsurance 0 +
    numOr form.penaltyEarlyWithdrawal 0 + numOr form.alimonyPaid 0 +
    numOr form.iraDeduction 0 + numOr form.studentLoanInterest 0

/-- A single itemizing filer with 20000 of state and local taxes. -/
def formSalt : TaxForm :=
  { deductionType := some "itemized", stateLocalTaxes := some 20000 }

/-- Closed form of the bracket walk: each bracket contributes its rate times
the part of the income clipped to the bracket. -/
def bracketSum (income : ℚ) : List (ℚ × ℚ) → ℚ
  | [] => 0
  | (limit, rate) :: rest =>
    match rest with
    | [] => rate * max 0 (income - limit)
    | (nextLimit, _) :: _ =>
      rate * max 0 (min income nextLimit - limit) + bracketSum income rest

/-- Hinge decomposition: the sum of rate-increments times hinge terms. -/
def hingeForm (income : ℚ) : ℚ → List (ℚ × ℚ) → ℚ
  | _, [] => 0
  | prev, (limit, rate) :: rest =>
    (rate - prev) * max 0 (income - limit) + hingeForm income rate rest

/-- A Lipschitz constant for `hingeForm`. -/
def hingeBound : ℚ → List (ℚ × ℚ) → ℚ
  | _, [] => 0
  | prev, (_, rate) :: rest => |rate - prev| + hingeBound rate rest

/-- Strictly increasing thresholds continuing from `a`. -/
def ThreshChainFrom (a : ℚ) : List (ℚ × ℚ) → Prop
  | [] => True
  | (limit, _) :: rest => a < limit ∧ ThreshChainFrom limit rest

/-- Non-decreasing rates continuing from `r`. -/
def RatesChainFrom (r : ℚ) : List (ℚ × ℚ) → Prop
  | [] => True
  | (_, rate) :: rest => r ≤ rate ∧ RatesChainFrom rate rest

/-! ## Shared helper lemmas -/

lemma numOr_nonneg {x : Option ℚ} {d : ℚ} (hx : 0 ≤ numOr x 0) (hd : 0 ≤ d) :
    0 ≤ numOr x d := by
  cases x with
  | none => simpa [numOr] using hd
  | some v =>
    by_cases hv : v = 0
    · simpa [numOr, hv] using hd
    · simpa [numOr, hv] using (by simpa [numOr, hv] using hx : 0 ≤ v)

lemma getPhaseOutPct_eq (fs : String) (inc : ℚ) :
    getPhaseOutPct fs inc =
      if inc ≤ phaseOutStartFor fs then 1
      else if phaseOutEndFor fs ≤ inc then 0
      else 1 - (inc - phaseOutStartFor fs) / (phaseOutEndFor fs - phaseOutStartFor fs) := by
  unfold getPhaseOutPct phaseOutStartFor phaseOutEndFor
  by_cases h : fs = "married" <;> simp [h]

lemma phaseOutStart_lt_end (fs : String) : phaseOutStartFor fs < phaseOutEndFor fs := by
  unfold phaseOutStartFor phaseOutEndFor
  by_cases h : fs = "married" <;> simp [h] <;> norm_num

lemma getPhaseOutPct_nonneg (fs : String) (inc : ℚ) : 0 ≤ getPhaseOutPct fs inc := by
  rw [getPhaseOutPct_eq]
  split_ifs with h1 h2
  · norm_num
  · norm_num
  · have hse := phaseOutStart_lt_end fs
    push_neg at h1 h2
    have : (inc - phaseOutStartFor fs) / (phaseOutEndFor fs - phaseOutStartFor fs) ≤ 1 := by
      rw [div_le_one (by linarith)]
      linarith
    linarith

lemma getPhaseOutPct_le_one (fs : String) (inc : ℚ) : getPhaseOutPct fs inc ≤ 1 := by
  rw [getPhaseOutPct_eq]
  split_ifs with h1 h2
  · norm_num
  · norm_num
  · have hse := phaseOutStart_lt_end fs
    push_neg at h1 h2
    have : 0 ≤ (inc - phaseOutStartFor fs) / (phaseOutEndFor fs - phaseOutStartFor fs) :=
      div_nonneg (by linarith) (by linarith)
    linarith

lemma calculateSelfEmploymentTax_tax_nonneg (n w : ℚ) (fs : String) :
    0 ≤ (calculateSelfEmploymentTax n w fs).tax := by
  unfold calculateSelfEmploymentTax
  split_ifs with h
  · simp
  · push_neg at h
    have hbase : 0 ≤ n * 0.9235 := by nlinarith
    have hss : 0 ≤ min (n * 0.9235) (max 0 (176100 - min 176100 w)) :=
      le_min hbase (le_max_left 0 _)
    have haddl : (0:ℚ) ≤ max 0 (n * 0.9235 - max 0 (seAddlMedicareThresholdFor fs - w)) :=
      le_max_left 0 _
    simp only
    nlinarith [hss, haddl, hbase]

lemma calculateSelfEmploymentTax_deduction_nonneg (n w : ℚ) (fs : String) :
    0 ≤ (calculateSelfEmploymentTax n w fs).deduction := by
  unfold calculateSelfEmploymentTax
  split_ifs with h
  · simp
  · push_neg at h
    have hbase : 0 ≤ n * 0.9235 := by nlinarith
    have hss : 0 ≤ min (n * 0.9235) (max 0 (176100 - min 176100 w)) :=
      le_min hbase (le_max_left 0 _)
    have haddl : (0:ℚ) ≤ max 0 (n * 0.9235 - max 0 (seAddlMedicareThresholdFor fs - w)) :=
      le_max_left 0 _
    simp only
    nlinarith [hss, haddl, hbase]

lemma calculateBracketTax_nonneg (income : ℚ) (brackets : List (ℚ × ℚ)) :
    0 ≤ calculateBracketTax income brackets := by
  unfold calculateBracketTax
  split_ifs
  · norm_num
  · exact le_max_left 0 _

lemma calculateCapitalGainsTax_nonneg (ord gains : ℚ) (fs : String) :
    0 ≤ calculateCapitalGainsTax ord gains fs := by
  unfold calculateCapitalGainsTax
  split_ifs
  · norm_num
  · exact le_max_left 0 _

lemma calculateNIIT_nonneg (agi nii : ℚ) (fs : String) (hnii : 0 ≤ nii) :
    0 ≤ calculateNIIT agi nii fs := by
  unfold calculateNIIT
  have : (0:ℚ) ≤ min (max 0 (agi - niitThresholdFor fs)) nii :=
    le_min (le_max_left 0 _) hnii
  nlinarith

lemma standardDeductionFor_pos (fs : String) : 0 < standardDeductionFor fs := by
  unfold standardDeductionFor
  split_ifs <;> norm_num

lemma getSaltCap_pos (fs : String) (form : TaxForm) : 0 < getSaltCap fs form := by
  unfold getSaltCap
  split_ifs <;> norm_num

/-! ## Claim C5 -/

/-- Claim C5: `calculateBracketTax(60000, schedule)` with the 2025 single-filer
bracket schedule returns exactly 8114.00. -/
theorem claim_C5 : calculateBracketTax 60000 TAX_BRACKETS_2025_single = 8114 := by
  norm_num [calculateBracketTax, bracketLoop, TAX_BRACKETS_2025_single]

/-! ## Claim C4 -/

/-- Claim C4: `calculateCapitalGainsTax` returns 0 whenever `capitalGains <= 0`,
is always non-negative, and at (40000, 20000, single) under the 2025
capital-gains schedule returns exactly 1747.50. -/
theorem claim_C4 :
    (∀ ord gains : ℚ, ∀ fs : String,
      gains ≤ 0 → calculateCapitalGainsTax ord gains fs = 0) ∧
    (∀ ord gains : ℚ, ∀ fs : String, 0 ≤ calculateCapitalGainsTax ord gains fs) ∧
    calculateCapitalGainsTax 40000 20000 "single" = 1747.5 := by
  refine ⟨fun ord gains fs h => ?_,
    fun ord gains fs => calculateCapitalGainsTax_nonneg ord gains fs,
    by norm_num [calculateCapitalGainsTax, cgLoop, capitalGainsBracketsFor,
      CAPITAL_GAINS_BRACKETS_2025_single, List.reverse]⟩
  unfold calculateCapitalGainsTax
  simp [h]

/-- Witness for claim C4 at a concrete non-positive gain. -/
theorem claim_C4_witness :
    (-5 : ℚ) ≤ 0 ∧ calculateCapitalGainsTax 100 (-5) "single" = 0 :=
  ⟨by norm_num, claim_C4.1 100 (-5) "single" (by norm_num)⟩

/-! ## Claim C7 -/

/-- Claim C7: `calculateSelfEmploymentTax` returns tax 0 and deduction 0 for
every non-positive net self-employment income, and on every input the
returned deduction equals exactly half of the returned tax. -/
theorem claim_C7 :
    (∀ n w : ℚ, ∀ fs : String,
      n ≤ 0 → calculateSelfEmploymentTax n w fs = { tax := 0, deduction := 0 }) ∧
    (∀ n w : ℚ, ∀ fs : String,
      (calculateSelfEmploymentTax n w fs).deduction =
        (calculateSelfEmploymentTax n w fs).tax * 0.5) := by
  constructor
  · intro n w fs h
    unfold calculateSelfEmploymentTax
    simp [h]
  · intro n w fs
    unfold calculateSelfEmploymentTax
    split_ifs with h
    · norm_num
    · rfl

/-- Witness for claim C7 at concrete inputs. -/
theorem claim_C7_witness :
    (-3 : ℚ) ≤ 0 ∧ calculateSelfEmploymentTax (-3) 10 "head" = { tax := 0, deduction := 0 } :=
  ⟨by norm_num, claim_C7.1 (-3) 10 "head" (by norm_num)⟩

/-! ## Claim C3 -/

/-- Claim C3 counterexample: with a negative net investment income,
`calculateNIIT` returns a negative amount, refuting that the result is
greater than or equal to 0 for every input (here it returns -3.8). -/
theorem claim_C3_counterexample : calculateNIIT 300000 (-100) "single" < 0 := by
  norm_num [calculateNIIT, niitThresholdFor]

/-- Claim C3 (amended): `calculateNIIT` returns 3.8% of
`min(max(0, agi - threshold), netInvestmentIncome)` with the filing-status
NIIT threshold, and the result is non-negative whenever the net investment
income is non-negative (a negative net investment income yields a negative
result, per the counterexample). -/
theorem claim_C3_amended (agi nii : ℚ) (fs : String) :
    calculateNIIT agi nii fs = 0.038 * min (max 0 (agi - niitThresholdFor fs)) nii ∧
    (0 ≤ nii → 0 ≤ calculateNIIT agi nii fs) := by
  constructor
  · unfold calculateNIIT
    ring
  · intro h
    exact calculateNIIT_nonneg agi nii fs h

/-- Witness for claim C3 (amended) at concrete inputs. -/
theorem claim_C3_witness :
    calculateNIIT 300000 50000 "single" =
      0.038 * min (max 0 ((300000:ℚ) - niitThresholdFor "single")) 50000 ∧
    (0 ≤ (50000:ℚ) ∧ 0 ≤ calculateNIIT 300000 50000 "single") :=
  ⟨(claim_C3_amended 300000 50000 "single").1,
    by norm_num, (claim_C3_amended 300000 50000 "single").2 (by norm_num)⟩

/-! ## Claim C1 -/

/-- Claim C1 counterexample: with the law-version toggle on and a tentative
MAGI of 500000 the phase-out factor is 0, yet the auto-loan-interest
deduction is not scaled by it: the form's 8000 of auto-loan interest is
deducted in full (total adjustments 8000 instead of the 0 the claim
dictates). -/
theorem claim_C1_counterexample :
    getPolicyFlags formAuto = true ∧
    phaseOutPctOf formAuto = 0 ∧
    autoLoanDeductionOf formAuto ≠
      min (numOr formAuto.autoLoanInterest 0) 10000 * phaseOutPctOf formAuto ∧
    (calculateTotalTax d0 formAuto).totalAdjustments = 8000 := by
  have hpct : phaseOutPctOf formAuto = 0 := by
    norm_num [phaseOutPctOf, getPhaseOutPct, magiForPhaseOutOf, totalIncomeOf,
      tentativeAdjustmentsOf, filingStatusOf, formAuto, numOr, scheduleCOf, scheduleEOf,
      cappedCapitalForAGIOf, netCapitalOf, netShortTermOf, netLongTermOf, capPartsOf,
      capPartsFallback, capLossLimitOf, capLossLimitFor,
      show ("single" : String) ≠ "married" by decide]
  refine ⟨rfl, hpct, ?_, ?_⟩
  · rw [hpct]
    norm_num [autoLoanDeductionOf, getPolicyFlags, formAuto, numOr]
  · norm_num [calculateTotalTax, totalAdjustmentsOf, numOr, formAuto, seTaxComputedOf,
      calculateSelfEmploymentTax, scheduleCOf, wagesForSETOf, filingStatusOf,
      tipsDeductionOf, overtimeDeductionOf, autoLoanDeductionOf, seniorBonusOf,
      getPolicyFlags, phaseOutPctOf, getPhaseOutPct, magiForPhaseOutOf, totalIncomeOf,
      tentativeAdjustmentsOf, cappedCapitalForAGIOf, netCapitalOf, netShortTermOf,
      netLongTermOf, capPartsOf, capPartsFallback, capLossLimitOf, capLossLimitFor,
      scheduleEOf, calculateAge, d0]

/-- Claim C1 (amended): with the law-version toggle on, `calculateTotalTax`
scales the tip-income and overtime deductions (capped at 25000 and 12500)
by the phase-out factor computed from tentative MAGI; the auto-loan-interest
deduction is merely capped at 10000 and the senior bonus is a flat 6000 at
age 65 or older, neither scaled by the factor. The factor lies in [0,1],
equals 1 at or below the filing-status-specific floor, is 0 at or above the
ceiling, and declines linearly in between. -/
theorem claim_C1_amended (form : TaxForm) (h : getPolicyFlags form = true) :
    tipsDeductionOf form = min (numOr form.tipIncome 0) 25000 * phaseOutPctOf form ∧
    overtimeDeductionOf form = min (numOr form.overtimeIncome 0) 12500 * phaseOutPctOf form ∧
    autoLoanDeductionOf form = min (numOr form.autoLoanInterest 0) 10000 ∧
    (∀ today, seniorBonusOf today form =
      if 65 ≤ calculateAge today form.birthDate then 6000 else 0) ∧
    0 ≤ phaseOutPctOf form ∧ phaseOutPctOf form ≤ 1 ∧
    (magiForPhaseOutOf form ≤ phaseOutStartFor (filingStatusOf form) →
      phaseOutPctOf form = 1) ∧
    (phaseOutEndFor (filingStatusOf form) ≤ magiForPhaseOutOf form →
      phaseOutPctOf form = 0) ∧
    (phaseOutStartFor (filingStatusOf form) < magiForPhaseOutOf form →
      magiForPhaseOutOf form < phaseOutEndFor (filingStatusOf form) →
      phaseOutPctOf form = 1 -
        (magiForPhaseOutOf form - phaseOutStartFor (filingStatusOf form)) /
          (phaseOutEndFor (filingStatusOf form) - phaseOutStartFor (filingStatusOf form))) := by
  refine ⟨by simp [tipsDeductionOf, h], by simp [overtimeDeductionOf, h],
    by simp [autoLoanDeductionOf, h], fun today => by simp [seniorBonusOf, h],
    getPhaseOutPct_nonneg _ _, getPhaseOutPct_le_one _ _, ?_, ?_, ?_⟩
  · intro hlo
    unfold phaseOutPctOf
    rw [getPhaseOutPct_eq, if_pos hlo]
  · intro hhi
    unfold phaseOutPctOf
    rw [getPhaseOutPct_eq, if_neg (by linarith [phaseOutStart_lt_end (filingStatusOf form)]),
      if_pos hhi]
  · intro h1 h2
    unfold phaseOutPctOf
    rw [getPhaseOutPct_eq, if_neg (by linarith), if_neg (by linarith)]

/-- Witness for claim C1 (amended) on a concrete toggled-on form. -/
theorem claim_C1_witness :
    getPolicyFlags formSenior = true ∧
    tipsDeductionOf formSenior =
      min (numOr formSenior.tipIncome 0) 25000 * phaseOutPctOf formSenior ∧
    seniorBonusOf d0 formSenior =
      (if 65 ≤ calculateAge d0 formSenior.birthDate then 6000 else 0) :=
  ⟨by decide, (claim_C1_amended formSenior (by decide)).1,
    (claim_C1_amended formSenior (by decide)).2.2.2.1 d0⟩

/-! ## Claim C2 -/

lemma tipsDeductionOf_nonneg (form : TaxForm) (h : 0 ≤ numOr form.tipIncome 0) :
    0 ≤ tipsDeductionOf form := by
  unfold tipsDeductionOf
  split_ifs
  · exact mul_nonneg (le_min h (by norm_num)) (getPhaseOutPct_nonneg _ _)
  · norm_num

lemma overtimeDeductionOf_nonneg (form : TaxForm) (h : 0 ≤ numOr form.overtimeIncome 0) :
    0 ≤ overtimeDeductionOf form := by
  unfold overtimeDeductionOf
  split_ifs
  · exact mul_nonneg (le_min h (by norm_num)) (getPhaseOutPct_nonneg _ _)
  · norm_num

lemma autoLoanDeductionOf_nonneg (form : TaxForm) (h : 0 ≤ numOr form.autoLoanInterest 0) :
    0 ≤ autoLoanDeductionOf form := by
  unfold autoLoanDeductionOf
  split_ifs
  · exact le_min h (by norm_num)
  · norm_num

lemma seniorBonusOf_nonneg (today : SimpleDate) (form : TaxForm) :
    0 ≤ seniorBonusOf today form := by
  unfold seniorBonusOf
  split_ifs <;> norm_num

lemma totalAdjustmentsOf_nonneg (today : SimpleDate) (form : TaxForm)
    (h1 : 0 ≤ numOr form.educatorExpenses 0) (h2 : 0 ≤ numOr form.hsaDeduction 0)
    (h3 : 0 ≤ numOr form.selfEmployedSEPSimple 0)
    (h4 : 0 ≤ numOr form.selfEmployedHealthInsurance 0)
    (h5 : 0 ≤ numOr form.penaltyEarlyWithdrawal 0) (h6 : 0 ≤ numOr form.alimonyPaid 0)
    (h7 : 0 ≤ numOr form.iraDeduction 0) (h8 : 0 ≤ numOr form.studentLoanInterest 0)
    (h9 : 0 ≤ numOr form.tipIncome 0) (h10 : 0 ≤ numOr form.overtimeIncome 0)
    (h11 : 0 ≤ numOr form.autoLoanInterest 0) :
    0 ≤ totalAdjustmentsOf today form := by
  unfold totalAdjustmentsOf
  have hse : 0 ≤ max (numOr form.selfEmploymentTaxDeduction 0) (seTaxComputedOf form).deduction :=
    le_trans (calculateSelfEmploymentTax_deduction_nonneg _ _ _) (le_max_right _ _)
  have := tipsDeductionOf_nonneg form h9
  have := overtimeDeductionOf_nonneg form h10
  have := autoLoanDeductionOf_nonneg form h11
  have := seniorBonusOf_nonneg today form
  linarith

lemma deductionOf_nonneg (today : SimpleDate) (form : TaxForm)
    (h12 : 0 ≤ numOr form.stateLocalTaxes 0) (h13 : 0 ≤ numOr form.realEstateTaxes 0)
    (h14 : 0 ≤ numOr form.mortgageInterest 0) (h15 : 0 ≤ numOr form.charityCash 0)
    (h16 : 0 ≤ numOr form.charityNonCash 0) (h17 : 0 ≤ numOr form.casualtyLosses 0)
    (h18 : 0 ≤ numOr form.otherItemized 0) :
    0 ≤ deductionOf today form := by
  unfold deductionOf
  split_ifs
  · unfold itemizedTotalOf
    have hmed : 0 ≤ medicalDeductibleOf today form := le_max_left 0 _
    have hsalt : 0 ≤ actualSaltOf form :=
      le_min (add_nonneg h12 h13) (le_of_lt (getSaltCap_pos _ _))
    linarith
  · exact le_of_lt (standardDeductionFor_pos _)

/-- Values of `qbiDeductionOf` are non-negative. -/
lemma qbiDeductionOf_nonneg (today : SimpleDate) (form : TaxForm) :
    0 ≤ qbiDeductionOf today form := by
  dsimp only [qbiDeductionOf]
  split_ifs with hpos
  · exact le_min (mul_nonneg hpos.le (by norm_num)) (le_max_left 0 _)
  · norm_num

/-- Claim C2 counterexample: a form whose only entry is a 10000 capital loss
produces a Tax Result with totalIncome = agi = -3000 (the capped loss), and a
form whose only entry is a 100000 Schedule E loss produces
totalTaxBeforeCredits = -3800 (a negative NIIT), refuting non-negativity of
the listed monetary fields. -/
theorem claim_C2_counterexample :
    (calculateTotalTax d0 formCapLoss).totalIncome < 0 ∧
    (calculateTotalTax d0 formCapLoss).agi < 0 ∧
    (calculateTotalTax d0 formSchedELoss).totalTaxBeforeCredits < 0 := by
  have hti : totalIncomeOf formCapLoss = -3000 := by
    norm_num [totalIncomeOf, numOr, formCapLoss, scheduleCOf, scheduleEOf,
      cappedCapitalForAGIOf, netCapitalOf, netShortTermOf, netLongTermOf, capPartsOf,
      capPartsFallback, capLossLimitOf, capLossLimitFor, filingStatusOf,
      show ("single" : String) ≠ "marriedSeparate" by decide]
  have hadj : totalAdjustmentsOf d0 formCapLoss = 0 := by
    norm_num [totalAdjustmentsOf, numOr, formCapLoss, seTaxComputedOf,
      calculateSelfEmploymentTax, scheduleCOf, wagesForSETOf, filingStatusOf,
      tipsDeductionOf, overtimeDeductionOf, autoLoanDeductionOf, seniorBonusOf,
      getPolicyFlags, calculateAge, d0]
  refine ⟨?_, ?_, ?_⟩
  · show totalIncomeOf formCapLoss < 0
    rw [hti]; norm_num
  · show agiOf d0 formCapLoss < 0
    unfold agiOf
    rw [hti, hadj]; norm_num
  · show totalTaxBeforeCreditsOf d0 formSchedELoss < 0
    have hagi : agiOf d0 formSchedELoss = -100000 := by
      norm_num [agiOf, totalIncomeOf, totalAdjustmentsOf, numOr, formSchedELoss,
        scheduleCOf, scheduleEOf, cappedCapitalForAGIOf, netCapitalOf, netShortTermOf,
        netLongTermOf, capPartsOf, capPartsFallback, capLossLimitOf, capLossLimitFor,
        filingStatusOf, seTaxComputedOf, calculateSelfEmploymentTax, wagesForSETOf,
        tipsDeductionOf, overtimeDeductionOf, autoLoanDeductionOf, seniorBonusOf,
        getPolicyFlags, calculateAge, d0,
        show ("single" : String) ≠ "marriedSeparate" by decide]
    have hinv : investmentIncomeOf formSchedELoss = -100000 := by
      norm_num [investmentIncomeOf, numOr, formSchedELoss, netPositiveCapOf,
        netCapitalOf, netShortTermOf, netLongTermOf, capPartsOf, capPartsFallback,
        scheduleEOf]
    have hniit : niitOf d0 formSchedELoss = -3800 := by
      unfold niitOf
      rw [hagi, hinv]
      norm_num [calculateNIIT, niitThresholdFor, filingStatusOf, formSchedELoss]
    have hreg : regularTaxOf d0 formSchedELoss = 0 := by
      have hord : ordinaryTaxableIncomeOf d0 formSchedELoss ≤ 0 := by
        unfold ordinaryTaxableIncomeOf taxableIncomeOf
        rw [hagi]
        have hded : 0 ≤ deductionOf d0 formSchedELoss :=
          deductionOf_nonneg d0 formSchedELoss (by norm_num [numOr, formSchedELoss])
            (by norm_num [numOr, formSchedELoss]) (by norm_num [numOr, formSchedELoss])
            (by norm_num [numOr, formSchedELoss]) (by norm_num [numOr, formSchedELoss])
            (by norm_num [numOr, formSchedELoss]) (by norm_num [numOr, formSchedELoss])
        have hqbi : 0 ≤ qbiDeductionOf d0 formSchedELoss :=
          qbiDeductionOf_nonneg d0 formSchedELoss
        have hqual : 0 ≤ totalQualifiedIncomeOf formSchedELoss := by
          norm_num [totalQualifiedIncomeOf, numOr, formSchedELoss]
        have hmax : max 0 ((-100000 : ℚ) - deductionOf d0 formSchedELoss -
            qbiDeductionOf d0 formSchedELoss) = 0 :=
          max_eq_left (by linarith)
        rw [hmax]
        rw [max_eq_left (by linarith : (0:ℚ) - totalQualifiedIncomeOf formSchedELoss ≤ 0)]
      unfold regularTaxOf calculateBracketTax
      rw [if_pos hord]
    have hcg : capitalGainsTaxOf d0 formSchedELoss = 0 := by
      have hq : totalQualifiedIncomeOf formSchedELoss = 0 := by
        norm_num [totalQualifiedIncomeOf, numOr, formSchedELoss, netLongTermOf,
          capPartsOf, capPartsFallback]
      unfold capitalGainsTaxOf calculateCapitalGainsTax
      rw [hq]
      norm_num
    have hse : seTaxOf formSchedELoss = 0 := by
      norm_num [seTaxOf, seTaxComputedOf, calculateSelfEmploymentTax, scheduleCOf,
        formSchedELoss, wagesForSETOf, numOr, filingStatusOf]
    unfold totalTaxBeforeCreditsOf
    rw [hreg, hcg, hse, hniit]
    norm_num

/-- Claim C2 (amended): for a Tax Form whose numeric input fields are
non-negative (capitalGainLoss, Schedule D and the business schedules may
still carry losses), the Tax Result's totalAdjustments, deduction,
taxableIncome, regularTax, capitalGainsTax, seTax, totalCredits and
totalPayments are non-negative. Besides totalIncome, agi, finalTax and
refundOrOwed, totalTaxBeforeCredits may also be negative — through a
negative NIIT when Schedule E carries a loss, as the counterexample shows —
and is non-negative whenever the Schedule E net figure is non-negative. -/
theorem claim_C2_amended (today : SimpleDate) (form : TaxForm) (h : NonnegInputs form) :
    0 ≤ (calculateTotalTax today form).totalAdjustments ∧
    0 ≤ (calculateTotalTax today form).deduction ∧
    0 ≤ (calculateTotalTax today form).taxableIncome ∧
    0 ≤ (calculateTotalTax today form).regularTax ∧
    0 ≤ (calculateTotalTax today form).capitalGainsTax ∧
    0 ≤ (calculateTotalTax today form).seTax ∧
    0 ≤ (calculateTotalTax today form).totalCredits ∧
    0 ≤ (calculateTotalTax today form).totalPayments ∧
    (0 ≤ scheduleEOf form → 0 ≤ (calculateTotalTax today form).totalTaxBeforeCredits) := by
  obtain ⟨h1, h2, h3, h4, h5, h6, h7, h8, h9, h10, h11, h12, h13, h14, h15, h16, h17,
    h18, h19, h20, h21, h22, h23, h24, h25, h26, h27, h28, h29, h30⟩ := h
  refine ⟨totalAdjustmentsOf_nonneg today form h1 h2 h3 h4 h5 h6 h7 h8 h9 h10 h11,
    deductionOf_nonneg today form h12 h13 h14 h15 h16 h17 h18,
    le_max_left 0 _,
    calculateBracketTax_nonneg _ _,
    calculateCapitalGainsTax_nonneg _ _ _,
    calculateSelfEmploymentTax_tax_nonneg _ _ _,
    ?_, ?_, ?_⟩
  · show 0 ≤ totalCreditsOf form
    unfold totalCreditsOf
    have hest1 : 0 ≤ estimatedChildCreditOf form := by
      unfold estimatedChildCreditOf
      positivity
    have hest2 : 0 ≤ estimatedOtherDependentsCreditOf form := by
      unfold estimatedOtherDependentsCreditOf
      positivity
    have c1 := numOr_nonneg h21 hest1
    have c2 := numOr_nonneg h22 hest2
    linarith
  · show 0 ≤ totalPaymentsOf form
    unfold totalPaymentsOf
    linarith
  · intro hE
    show 0 ≤ totalTaxBeforeCreditsOf today form
    unfold totalTaxBeforeCreditsOf
    have hreg : 0 ≤ regularTaxOf today form := calculateBracketTax_nonneg _ _
    have hcg : 0 ≤ capitalGainsTaxOf today form := calculateCapitalGainsTax_nonneg _ _ _
    have hse : 0 ≤ seTaxOf form := calculateSelfEmploymentTax_tax_nonneg _ _ _
    have hinv : 0 ≤ investmentIncomeOf form := by
      unfold investmentIncomeOf netPositiveCapOf
      have : (0:ℚ) ≤ max 0 (netCapitalOf form) := le_max_left 0 _
      linarith
    have hniit : 0 ≤ niitOf today form := calculateNIIT_nonneg _ _ _ hinv
    linarith

/-- Witness for claim C2 (amended): the empty form has non-negative inputs,
a non-negative Schedule E figure, and a Tax Result whose listed fields are
all non-negative, totalTaxBeforeCredits included. -/
theorem claim_C2_witness :
    NonnegInputs formEmpty ∧ 0 ≤ scheduleEOf formEmpty ∧
    (0 ≤ (calculateTotalTax d0 formEmpty).totalAdjustments ∧
      0 ≤ (calculateTotalTax d0 formEmpty).deduction ∧
      0 ≤ (calculateTotalTax d0 formEmpty).taxableIncome ∧
      0 ≤ (calculateTotalTax d0 formEmpty).regularTax ∧
      0 ≤ (calculateTotalTax d0 formEmpty).capitalGainsTax ∧
      0 ≤ (calculateTotalTax d0 formEmpty).seTax ∧
      0 ≤ (calculateTotalTax d0 formEmpty).totalCredits ∧
      0 ≤ (calculateTotalTax d0 formEmpty).totalPayments) ∧
    0 ≤ (calculateTotalTax d0 formEmpty).totalTaxBeforeCredits := by
  have hn : NonnegInputs formEmpty := by
    refine ⟨?_, ?_, ?_, ?_, ?_, ?_, ?_, ?_, ?_, ?_, ?_, ?_, ?_, ?_, ?_, ?_, ?_, ?_,
      ?_, ?_, ?_, ?_, ?_, ?_, ?_, ?_, ?_, ?_, ?_, ?_⟩ <;>
      norm_num [numOr, formEmpty]
  have hE : 0 ≤ scheduleEOf formEmpty := by norm_num [scheduleEOf, formEmpty]
  obtain ⟨a1, a2, a3, a4, a5, a6, a7, a8, himp⟩ := claim_C2_amended d0 formEmpty hn
  exact ⟨hn, hE, ⟨a1, a2, a3, a4, a5, a6, a7, a8⟩, himp hE⟩

/-! ## Claim C8 -/

lemma totalAdjustmentsOf_eq (today : SimpleDate) (form : TaxForm) :
    totalAdjustmentsOf today form = adjustmentsBaseOf form + tipsDeductionOf form +
      overtimeDeductionOf form + autoLoanDeductionOf form + seniorBonusOf today form := rfl

/-- Claim C8 counterexample: on a form taking the standard deduction the
law-version toggle does not change the deduction at all (15700 both ways),
refuting the strictly-larger claim for every Tax Form. -/
theorem claim_C8_counterexample :
    (calculateTotalTax d0 { formEmpty with useObbba2025 := some true }).deduction =
      (calculateTotalTax d0 { formEmpty with useObbba2025 := some false }).deduction := by
  have hT : (calculateTotalTax d0 { formEmpty with useObbba2025 := some true }).deduction
      = 15700 := by
    norm_num [calculateTotalTax, deductionOf, standardDeductionOf, standardDeductionFor,
      filingStatusOf, formEmpty, show ¬ (none : Option String) = some "itemized" by decide]
  have hF : (calculateTotalTax d0 { formEmpty with useObbba2025 := some false }).deduction
      = 15700 := by
    norm_num [calculateTotalTax, deductionOf, standardDeductionOf, standardDeductionFor,
      filingStatusOf, formEmpty, show ¬ (none : Option String) = some "itemized" by decide]
  rw [hT, hF]

/-- Claim C8 (amended): the toggle-on deduction strictly exceeds the
toggle-off deduction for forms that itemize, have non-negative tip, overtime
and auto-loan fields, and whose SALT components exceed the toggle-off cap
(10000, or 5000 for married-filing-separately); on other forms (e.g. any
standard-deduction form, per the counterexample) the two deductions can
coincide, so only a non-strict comparison holds in general. -/
theorem claim_C8_amended (today : SimpleDate) (form : TaxForm)
    (hit : form.deductionType = some "itemized")
    (htip : 0 ≤ numOr form.tipIncome 0) (hot : 0 ≤ numOr form.overtimeIncome 0)
    (hauto : 0 ≤ numOr form.autoLoanInterest 0)
    (hsalt : (if filingStatusOf form = "marriedSeparate" then (5000:ℚ) else 10000) <
      numOr form.stateLocalTaxes 0 + numOr form.realEstateTaxes 0) :
    (calculateTotalTax today { form with useObbba2025 := some false }).deduction <
      (calculateTotalTax today { form with useObbba2025 := some true }).deduction := by
  show deductionOf today { form with useObbba2025 := some false } <
    deductionOf today { form with useObbba2025 := some true }
  have hflagT : getPolicyFlags { form with useObbba2025 := some true } = true := rfl
  have hflagF : getPolicyFlags { form with useObbba2025 := some false } = false := rfl
  have htipsF : tipsDeductionOf { form with useObbba2025 := some false } = 0 := by
    unfold tipsDeductionOf
    rw [hflagF]
    norm_num
  have hotF : overtimeDeductionOf { form with useObbba2025 := some false } = 0 := by
    unfold overtimeDeductionOf
    rw [hflagF]
    norm_num
  have hautoF : autoLoanDeductionOf { form with useObbba2025 := some false } = 0 := by
    unfold autoLoanDeductionOf
    rw [hflagF]
    norm_num
  have hsenF : seniorBonusOf today { form with useObbba2025 := some false } = 0 := by
    unfold seniorBonusOf
    rw [if_neg]
    rw [hflagF]
    simp
  have hadjle : totalAdjustmentsOf today { form with useObbba2025 := some false } ≤
      totalAdjustmentsOf today { form with useObbba2025 := some true } := by
    rw [totalAdjustmentsOf_eq, totalAdjustmentsOf_eq, htipsF, hotF, hautoF, hsenF]
    have hb : adjustmentsBaseOf { form with useObbba2025 := some false } =
      adjustmentsBaseOf { form with useObbba2025 := some true } := rfl
    rw [hb]
    have n1 : 0 ≤ tipsDeductionOf { form with useObbba2025 := some true } :=
      tipsDeductionOf_nonneg _ htip
    have n2 : 0 ≤ overtimeDeductionOf { form with useObbba2025 := some true } :=
      overtimeDeductionOf_nonneg _ hot
    have n3 : 0 ≤ autoLoanDeductionOf { form with useObbba2025 := some true } :=
      autoLoanDeductionOf_nonneg _ hauto
    have n4 : 0 ≤ seniorBonusOf today { form with useObbba2025 := some true } :=
      seniorBonusOf_nonneg _ _
    linarith
  have hagile : agiOf today { form with useObbba2025 := some true } ≤
      agiOf today { form with useObbba2025 := some false } := by
    unfold agiOf
    have hti : totalIncomeOf { form with useObbba2025 := some false } =
      totalIncomeOf { form with useObbba2025 := some true } := rfl
    rw [hti]
    linarith
  have hmed : medicalDeductibleOf today { form with useObbba2025 := some false } ≤
      medicalDeductibleOf today { form with useObbba2025 := some true } := by
    unfold medicalDeductibleOf
    show max 0 (numOr form.medicalExpenses 0 -
        agiOf today { form with useObbba2025 := some false } * 0.075) ≤
      max 0 (numOr form.medicalExpenses 0 -
        agiOf today { form with useObbba2025 := some true } * 0.075)
    apply max_le_max le_rfl
    nlinarith [hagile]
  have hsaltF : actualSaltOf { form with useObbba2025 := some false } =
      (if filingStatusOf form = "marriedSeparate" then (5000:ℚ) else 10000) := by
    unfold actualSaltOf
    show min (numOr form.stateLocalTaxes 0 + numOr form.realEstateTaxes 0)
        (getSaltCap (filingStatusOf form) { form with useObbba2025 := some false }) = _
    have hc : getSaltCap (filingStatusOf form) { form with useObbba2025 := some false } =
        (if filingStatusOf form = "marriedSeparate" then (5000:ℚ) else 10000) := by
      unfold getSaltCap
      rw [hflagF]
      norm_num
    rw [hc]
    exact min_eq_right hsalt.le
  have hsaltT : (if filingStatusOf form = "marriedSeparate" then (5000:ℚ) else 10000) <
      actualSaltOf { form with useObbba2025 := some true } := by
    unfold actualSaltOf
    show _ < min (numOr form.stateLocalTaxes 0 + numOr form.realEstateTaxes 0)
        (getSaltCap (filingStatusOf form) { form with useObbba2025 := some true })
    apply lt_min hsalt
    have hc : getSaltCap (filingStatusOf form) { form with useObbba2025 := some true } =
        (if filingStatusOf form = "marriedSeparate" then (20000:ℚ) else 40000) := by
      unfold getSaltCap
      rw [hflagT]
      norm_num
    rw [hc]
    split_ifs <;> norm_num
  have hitem : itemizedTotalOf today { form with useObbba2025 := some false } <
      itemizedTotalOf today { form with useObbba2025 := some true } := by
    unfold itemizedTotalOf
    show medicalDeductibleOf today { form with useObbba2025 := some false } +
        actualSaltOf { form with useObbba2025 := some false } +
        numOr form.mortgageInterest 0 + numOr form.charityCash 0 +
        numOr form.charityNonCash 0 + numOr form.casualtyLosses 0 +
        numOr form.otherItemized 0 <
      medicalDeductibleOf today { form with useObbba2025 := some true } +
        actualSaltOf { form with useObbba2025 := some true } +
        numOr form.mortgageInterest 0 + numOr form.charityCash 0 +
        numOr form.charityNonCash 0 + numOr form.casualtyLosses 0 +
        numOr form.otherItemized 0
    have := hsaltF ▸ hsaltT
    linarith
  have hdF : deductionOf today { form with useObbba2025 := some false } =
      itemizedTotalOf today { form with useObbba2025 := some false } := by
    unfold deductionOf
    rw [if_pos (show ({ form with useObbba2025 := some false } : TaxForm).deductionType =
      some "itemized" from hit)]
  have hdT : deductionOf today { form with useObbba2025 := some true } =
      itemizedTotalOf today { form with useObbba2025 := some true } := by
    unfold deductionOf
    rw [if_pos (show ({ form with useObbba2025 := some true } : TaxForm).deductionType =
      some "itemized" from hit)]
  rw [hdF, hdT]
  exact hitem

/-- Witness for claim C8 (amended) on a concrete itemizing form. -/
theorem claim_C8_witness :
    formSalt.deductionType = some "itemized" ∧
    (calculateTotalTax d0 { formSalt with useObbba2025 := some false }).deduction <
      (calculateTotalTax d0 { formSalt with useObbba2025 := some true }).deduction :=
  ⟨rfl, claim_C8_amended d0 formSalt rfl
    (by norm_num [numOr, formSalt]) (by norm_num [numOr, formSalt])
    (by norm_num [numOr, formSalt])
    (by norm_num [filingStatusOf, formSalt, numOr,
      show ("single" : String) ≠ "marriedSeparate" by decide])⟩

/-! ## Claim C9 -/

/-- Claim C9 counterexample: `calculateTotalTax` reads the system clock
(`new Date()` inside `calculateAge`), so the same form computed on June 14
and June 15, 2025 gives different Tax Results for a filer born June 15, 1960:
the age-65 senior bonus flips from 0 to 6000. The computation is therefore
not a function of the form alone. -/
theorem claim_C9_counterexample :
    calculateTotalTax ⟨2025, 6, 14⟩ formSenior ≠ calculateTotalTax ⟨2025, 6, 15⟩ formSenior := by
  intro h
  have h2 := congrArg TaxResult.totalAdjustments h
  rw [show (calculateTotalTax ⟨2025, 6, 14⟩ formSenior).totalAdjustments = 0 by
    norm_num [calculateTotalTax, totalAdjustmentsOf, numOr, formSenior, seTaxComputedOf,
      calculateSelfEmploymentTax, scheduleCOf, wagesForSETOf, filingStatusOf,
      tipsDeductionOf, overtimeDeductionOf, autoLoanDeductionOf, seniorBonusOf,
      getPolicyFlags, calculateAge]] at h2
  rw [show (calculateTotalTax ⟨2025, 6, 15⟩ formSenior).totalAdjustments = 6000 by
    norm_num [calculateTotalTax, totalAdjustmentsOf, numOr, formSenior, seTaxComputedOf,
      calculateSelfEmploymentTax, scheduleCOf, wagesForSETOf, filingStatusOf,
      tipsDeductionOf, overtimeDeductionOf, autoLoanDeductionOf, seniorBonusOf,
      getPolicyFlags, calculateAge]] at h2
  exact absurd h2 (by norm_num)

/-- Claim C9 (amended): `calculateTotalTax` is a pure function of the Tax
Form and the current system date; for a fixed date it is deterministic, and
for a form with no birthDate the date is irrelevant, so repeated calls
agree. With a birthDate the result can change across dates through the
age-65 senior-bonus check (see the counterexample). -/
theorem claim_C9_amended (form : TaxForm) (hbd : form.birthDate = none)
    (d1 d2 : SimpleDate) :
    calculateTotalTax d1 form = calculateTotalTax d2 form := by
  have hsb : seniorBonusOf d1 form = seniorBonusOf d2 form := by
    unfold seniorBonusOf calculateAge
    rw [hbd]
  have hadj : totalAdjustmentsOf d1 form = totalAdjustmentsOf d2 form := by
    unfold totalAdjustmentsOf
    rw [hsb]
  have hagi : agiOf d1 form = agiOf d2 form := by
    unfold agiOf
    rw [hadj]
  have hmedd : medicalDeductibleOf d1 form = medicalDeductibleOf d2 form := by
    unfold medicalDeductibleOf
    rw [hagi]
  have hitem : itemizedTotalOf d1 form = itemizedTotalOf d2 form := by
    unfold itemizedTotalOf
    rw [hmedd]
  have hded : deductionOf d1 form = deductionOf d2 form := by
    unfold deductionOf
    rw [hitem]
  have hqbi : qbiDeductionOf d1 form = qbiDeductionOf d2 form := by
    unfold qbiDeductionOf
    rw [hagi, hded]
  have htax : taxableIncomeOf d1 form = taxableIncomeOf d2 form := by
    unfold taxableIncomeOf
    rw [hagi, hded, hqbi]
  have hord : ordinaryTaxableIncomeOf d1 form = ordinaryTaxableIncomeOf d2 form := by
    unfold ordinaryTaxableIncomeOf
    rw [htax]
  have hreg : regularTaxOf d1 form = regularTaxOf d2 form := by
    unfold regularTaxOf
    rw [hord]
  have hcg : capitalGainsTaxOf d1 form = capitalGainsTaxOf d2 form := by
    unfold capitalGainsTaxOf
    rw [hord]
  have hniit : niitOf d1 form = niitOf d2 form := by
    unfold niitOf
    rw [hagi]
  have httbc : totalTaxBeforeCreditsOf d1 form = totalTaxBeforeCreditsOf d2 form := by
    unfold totalTaxBeforeCreditsOf
    rw [hreg, hcg, hniit]
  have htanr : taxAfterNonRefundableOf d1 form = taxAfterNonRefundableOf d2 form := by
    unfold taxAfterNonRefundableOf
    rw [httbc]
  have hfin : finalTaxOf d1 form = finalTaxOf d2 form := by
    unfold finalTaxOf
    rw [htanr]
  have hroo : refundOrOwedOf d1 form = refundOrOwedOf d2 form := by
    unfold refundOrOwedOf
    rw [hfin]
  unfold calculateTotalTax
  rw [hadj, hagi, hded, htax, hreg, hcg, httbc, hfin, hroo]

/-- Witness for claim C9 (amended): the empty form computed on two different
dates yields identical Tax Results. -/
theorem claim_C9_witness :
    formEmpty.birthDate = none ∧
    calculateTotalTax d0 formEmpty = calculateTotalTax ⟨2030, 1, 1⟩ formEmpty :=
  ⟨rfl, claim_C9_amended formEmpty rfl d0 ⟨2030, 1, 1⟩⟩

/-! ## Claim C10 -/

lemma taxBracketsFor_default {s : String} (h2 : s ≠ "married") (h3 : s ≠ "marriedSeparate")
    (h4 : s ≠ "head") (h5 : s ≠ "widow") :
    taxBracketsFor s = taxBracketsFor "single" := by
  by_cases h1 : s = "single"
  · rw [h1]
  · simp [taxBracketsFor, h1, h2, h3, h4, h5]

lemma standardDeductionFor_default {s : String} (h2 : s ≠ "married") (h3 : s ≠ "marriedSeparate")
    (h4 : s ≠ "head") (h5 : s ≠ "widow") :
    standardDeductionFor s = standardDeductionFor "single" := by
  by_cases h1 : s = "single"
  · rw [h1]
  · simp [standardDeductionFor, h1, h2, h3, h4, h5]

lemma capitalGainsBracketsFor_default {s : String} (h2 : s ≠ "married")
    (h3 : s ≠ "marriedSeparate") (h4 : s ≠ "head") (h5 : s ≠ "widow") :
    capitalGainsBracketsFor s = capitalGainsBracketsFor "single" := by
  by_cases h1 : s = "single"
  · rw [h1]
  · simp [capitalGainsBracketsFor, h1, h2, h3, h4, h5]

lemma seAddlMedicareThresholdFor_default {s : String} (h2 : s ≠ "married")
    (h3 : s ≠ "marriedSeparate") (h4 : s ≠ "head") (h5 : s ≠ "widow") :
    seAddlMedicareThresholdFor s = seAddlMedicareThresholdFor "single" := by
  by_cases h1 : s = "single"
  · rw [h1]
  · simp [seAddlMedicareThresholdFor, h1, h2, h3, h4, h5]

lemma niitThresholdFor_default {s : String} (h2 : s ≠ "married")
    (h3 : s ≠ "marriedSeparate") (h4 : s ≠ "head") (h5 : s ≠ "widow") :
    niitThresholdFor s = niitThresholdFor "single" := by
  by_cases h1 : s = "single"
  · rw [h1]
  · simp [niitThresholdFor, h1, h2, h3, h4, h5]

lemma capLossLimitFor_default {s : String} (h3 : s ≠ "marriedSeparate") :
    capLossLimitFor s = capLossLimitFor "single" := by
  simp [capLossLimitFor, h3, show ("single" : String) ≠ "marriedSeparate" by decide]

lemma getPhaseOutPct_default {s : String} (h2 : s ≠ "married") (inc : ℚ) :
    getPhaseOutPct s inc = getPhaseOutPct "single" inc := by
  simp [getPhaseOutPct, h2, show ("single" : String) ≠ "married" by decide]

lemma getSaltCap_default {s : String} (h3 : s ≠ "marriedSeparate") (g : TaxForm) :
    getSaltCap s g = getSaltCap "single" g := by
  simp [getSaltCap, h3, show ("single" : String) ≠ "marriedSeparate" by decide]

lemma calculateSelfEmploymentTax_status_congr (n w : ℚ) {a b : String}
    (h : seAddlMedicareThresholdFor a = seAddlMedicareThresholdFor b) :
    calculateSelfEmploymentTax n w a = calculateSelfEmploymentTax n w b := by
  unfold calculateSelfEmploymentTax
  rw [h]

lemma calculateCapitalGainsTax_status_congr (x y : ℚ) {a b : String}
    (h : capitalGainsBracketsFor a = capitalGainsBracketsFor b) :
    calculateCapitalGainsTax x y a = calculateCapitalGainsTax x y b := by
  unfold calculateCapitalGainsTax
  rw [h]

lemma calculateNIIT_status_congr (x y : ℚ) {a b : String}
    (h : niitThresholdFor a = niitThresholdFor b) :
    calculateNIIT x y a = calculateNIIT x y b := by
  unfold calculateNIIT
  rw [h]

/-- Every per-status lookup of the pipeline agreeing between the form's
resolved status and `s'` forces identical Tax Results when the filing status
is replaced by `s'`. -/
lemma calculateTotalTax_status_congr (today : SimpleDate) (form : TaxForm) (s' : String)
    (hs' : s' ≠ "")
    (h1 : taxBracketsFor (filingStatusOf form) = taxBracketsFor s')
    (h2 : standardDeductionFor (filingStatusOf form) = standardDeductionFor s')
    (h3 : capitalGainsBracketsFor (filingStatusOf form) = capitalGainsBracketsFor s')
    (h4 : seAddlMedicareThresholdFor (filingStatusOf form) = seAddlMedicareThresholdFor s')
    (h5 : niitThresholdFor (filingStatusOf form) = niitThresholdFor s')
    (h6 : capLossLimitFor (filingStatusOf form) = capLossLimitFor s')
    (h7 : ∀ inc, getPhaseOutPct (filingStatusOf form) inc = getPhaseOutPct s' inc)
    (h8 : ∀ g, getSaltCap (filingStatusOf form) g = getSaltCap s' g) :
    calculateTotalTax today form =
      calculateTotalTax today { form with filingStatus := some s' } := by
  have hfs' : filingStatusOf { form with filingStatus := some s' } = s' := by
    show (if s' = "" then "single" else s') = s'
    rw [if_neg hs']
  have hcl : capLossLimitOf { form with filingStatus := some s' } = capLossLimitOf form := by
    unfold capLossLimitOf
    rw [hfs', ← h6]
  have hnc : netCapitalOf { form with filingStatus := some s' } = netCapitalOf form := rfl
  have hcapped : cappedCapitalForAGIOf { form with filingStatus := some s' } =
      cappedCapitalForAGIOf form := by
    unfold cappedCapitalForAGIOf
    rw [hnc, hcl]
  have hti : totalIncomeOf { form with filingStatus := some s' } = totalIncomeOf form := by
    unfold totalIncomeOf
    rw [hcapped]
    try rfl
  have htent : tentativeAdjustmentsOf { form with filingStatus := some s' } =
      tentativeAdjustmentsOf form := rfl
  have hmagi : magiForPhaseOutOf { form with filingStatus := some s' } =
      magiForPhaseOutOf form := by
    unfold magiForPhaseOutOf
    rw [hti, htent]
  have hpf : getPolicyFlags { form with filingStatus := some s' } = getPolicyFlags form := rfl
  have hpct : phaseOutPctOf { form with filingStatus := some s' } = phaseOutPctOf form := by
    unfold phaseOutPctOf
    rw [hfs', hmagi]
    exact (h7 _).symm
  have htips : tipsDeductionOf { form with filingStatus := some s' } =
      tipsDeductionOf form := by
    unfold tipsDeductionOf
    rw [hpf, hpct]
    try rfl
  have hot : overtimeDeductionOf { form with filingStatus := some s' } =
      overtimeDeductionOf form := by
    unfold overtimeDeductionOf
    rw [hpf, hpct]
    try rfl
  have hauto : autoLoanDeductionOf { form with filingStatus := some s' } =
      autoLoanDeductionOf form := by
    unfold autoLoanDeductionOf
    rw [hpf]
    try rfl
  have hsen : ∀ d, seniorBonusOf d { form with filingStatus := some s' } =
      seniorBonusOf d form := fun d => rfl
  have hseC : seTaxComputedOf { form with filingStatus := some s' } = seTaxComputedOf form := by
    unfold seTaxComputedOf
    rw [show scheduleCOf { form with filingStatus := some s' } = scheduleCOf form from rfl,
      show wagesForSETOf { form with filingStatus := some s' } = wagesForSETOf form from rfl,
      hfs']
    exact calculateSelfEmploymentTax_status_congr _ _ h4.symm
  have hadj : totalAdjustmentsOf today { form with filingStatus := some s' } =
      totalAdjustmentsOf today form := by
    unfold totalAdjustmentsOf
    rw [hseC, htips, hot, hauto, hsen]
    try rfl
  have hagi : agiOf today { form with filingStatus := some s' } = agiOf today form := by
    unfold agiOf
    rw [hti, hadj]
  have hstd : standardDeductionOf { form with filingStatus := some s' } =
      standardDeductionOf form := by
    unfold standardDeductionOf
    rw [hfs', ← h2]
  have hsaltv : actualSaltOf { form with filingStatus := some s' } = actualSaltOf form := by
    unfold actualSaltOf
    rw [hfs',
      show getSaltCap s' { form with filingStatus := some s' } = getSaltCap s' form from rfl,
      ← h8 form]
    try rfl
  have hmed : medicalDeductibleOf today { form with filingStatus := some s' } =
      medicalDeductibleOf today form := by
    unfold medicalDeductibleOf
    rw [hagi]
    try rfl
  have hitem : itemizedTotalOf today { form with filingStatus := some s' } =
      itemizedTotalOf today form := by
    unfold itemizedTotalOf
    rw [hmed, hsaltv]
    try rfl
  have hded : deductionOf today { form with filingStatus := some s' } =
      deductionOf today form := by
    unfold deductionOf
    rw [hitem, hstd]
    try rfl
  have hqbi : qbiDeductionOf today { form with filingStatus := some s' } =
      qbiDeductionOf today form := by
    unfold qbiDeductionOf
    rw [hagi, hded,
      show scheduleCOf { form with filingStatus := some s' } = scheduleCOf form from rfl,
      show netLongTermOf { form with filingStatus := some s' } = netLongTermOf form from rfl]
    try rfl
  have htax : taxableIncomeOf today { form with filingStatus := some s' } =
      taxableIncomeOf today form := by
    unfold taxableIncomeOf
    rw [hagi, hded, hqbi]
  have hqual : totalQualifiedIncomeOf { form with filingStatus := some s' } =
      totalQualifiedIncomeOf form := rfl
  have hord : ordinaryTaxableIncomeOf today { form with filingStatus := some s' } =
      ordinaryTaxableIncomeOf today form := by
    unfold ordinaryTaxableIncomeOf
    rw [htax, hqual]
  have hreg : regularTaxOf today { form with filingStatus := some s' } =
      regularTaxOf today form := by
    unfold regularTaxOf
    rw [hord, hfs', ← h1]
  have hcg : capitalGainsTaxOf today { form with filingStatus := some s' } =
      capitalGainsTaxOf today form := by
    unfold capitalGainsTaxOf
    rw [hord, hqual, hfs']
    exact calculateCapitalGainsTax_status_congr _ _ h3.symm
  have hseT : seTaxOf { form with filingStatus := some s' } = seTaxOf form := by
    unfold seTaxOf
    rw [hseC]
  have hinv : investmentIncomeOf { form with filingStatus := some s' } =
      investmentIncomeOf form := rfl
  have hniit : niitOf today { form with filingStatus := some s' } = niitOf today form := by
    unfold niitOf
    rw [hagi, hinv, hfs']
    exact calculateNIIT_status_congr _ _ h5.symm
  have httbc : totalTaxBeforeCreditsOf today { form with filingStatus := some s' } =
      totalTaxBeforeCreditsOf today form := by
    unfold totalTaxBeforeCreditsOf
    rw [hreg, hcg, hseT, hniit]
  have hcred : totalCreditsOf { form with filingStatus := some s' } = totalCreditsOf form := rfl
  have hnrc : nonRefundableCreditsOf { form with filingStatus := some s' } =
      nonRefundableCreditsOf form := rfl
  have htanr : taxAfterNonRefundableOf today { form with filingStatus := some s' } =
      taxAfterNonRefundableOf today form := by
    unfold taxAfterNonRefundableOf
    rw [httbc, hnrc]
  have hrc : refundableCreditsOf { form with filingStatus := some s' } =
      refundableCreditsOf form := rfl
  have hfin : finalTaxOf today { form with filingStatus := some s' } =
      finalTaxOf today form := by
    unfold finalTaxOf
    rw [htanr, hrc]
  have hpay : totalPaymentsOf { form with filingStatus := some s' } = totalPaymentsOf form := rfl
  have hroo : refundOrOwedOf today { form with filingStatus := some s' } =
      refundOrOwedOf today form := by
    unfold refundOrOwedOf
    rw [hfin, hpay]
  unfold calculateTotalTax
  rw [hti, hadj, hagi, hded, htax, hreg, hcg, hseT, httbc, hcred, hfin, hpay, hroo]

/-- The five bridge lemmas below check the total-function lookups against the
prototype-aware JS lookup model: off the inherited `Object.prototype` member
names the two agree (own keys give the own value, everything else falls back
to the single value). -/
lemma jsLookupOr_taxBrackets (s : String) (hs : s ∉ OBJECT_PROTOTYPE_MEMBERS) :
    jsLookupOr TAX_BRACKETS_2025_table s TAX_BRACKETS_2025_single =
      JsLookup.own (taxBracketsFor s) := by
  by_cases e1 : s = "single"
  · simp +decide [jsLookupOr, jsObjectGet, TAX_BRACKETS_2025_table, taxBracketsFor, e1]
  · by_cases e2 : s = "married"
    · simp +decide [jsLookupOr, jsObjectGet, TAX_BRACKETS_2025_table, taxBracketsFor, e1, e2]
    · by_cases e3 : s = "marriedSeparate"
      · simp +decide [jsLookupOr, jsObjectGet, TAX_BRACKETS_2025_table, taxBracketsFor,
          e1, e2, e3]
      · by_cases e4 : s = "head"
        · simp +decide [jsLookupOr, jsObjectGet, TAX_BRACKETS_2025_table, taxBracketsFor,
            e1, e2, e3, e4]
        · by_cases e5 : s = "widow"
          · simp +decide [jsLookupOr, jsObjectGet, TAX_BRACKETS_2025_table, taxBracketsFor,
              e1, e2, e3, e4, e5]
          · simp [jsLookupOr, jsObjectGet, TAX_BRACKETS_2025_table, taxBracketsFor,
              e1, e2, e3, e4, e5, hs]

lemma jsLookupOr_standardDeduction (s : String) (hs : s ∉ OBJECT_PROTOTYPE_MEMBERS) :
    jsLookupOr STANDARD_DEDUCTIONS_2025_table s 15700 =
      JsLookup.own (standardDeductionFor s) := by
  by_cases e1 : s = "single"
  · simp +decide [jsLookupOr, jsObjectGet, STANDARD_DEDUCTIONS_2025_table,
      standardDeductionFor, e1]
  · by_cases e2 : s = "married"
    · simp +decide [jsLookupOr, jsObjectGet, STANDARD_DEDUCTIONS_2025_table,
        standardDeductionFor, e1, e2]
    · by_cases e3 : s = "marriedSeparate"
      · simp +decide [jsLookupOr, jsObjectGet, STANDARD_DEDUCTIONS_2025_table,
          standardDeductionFor, e1, e2, e3]
      · by_cases e4 : s = "head"
        · simp +decide [jsLookupOr, jsObjectGet, STANDARD_DEDUCTIONS_2025_table,
            standardDeductionFor, e1, e2, e3, e4]
        · by_cases e5 : s = "widow"
          · simp +decide [jsLookupOr, jsObjectGet, STANDARD_DEDUCTIONS_2025_table,
              standardDeductionFor, e1, e2, e3, e4, e5]
          · simp [jsLookupOr, jsObjectGet, STANDARD_DEDUCTIONS_2025_table,
              standardDeductionFor, e1, e2, e3, e4, e5, hs]

lemma jsLookupOr_capitalGains (s : String) (hs : s ∉ OBJECT_PROTOTYPE_MEMBERS) :
    jsLookupOr CAPITAL_GAINS_BRACKETS_2025_table s CAPITAL_GAINS_BRACKETS_2025_single =
      JsLookup.own (capitalGainsBracketsFor s) := by
  by_cases e1 : s = "single"
  · simp +decide [jsLookupOr, jsObjectGet, CAPITAL_GAINS_BRACKETS_2025_table,
      capitalGainsBracketsFor, e1]
  · by_cases e2 : s = "married"
    · simp +decide [jsLookupOr, jsObjectGet, CAPITAL_GAINS_BRACKETS_2025_table,
        capitalGainsBracketsFor, e1, e2]
    · by_cases e3 : s = "marriedSeparate"
      · simp +decide [jsLookupOr, jsObjectGet, CAPITAL_GAINS_BRACKETS_2025_table,
          capitalGainsBracketsFor, e1, e2, e3]
      · by_cases e4 : s = "head"
        · simp +decide [jsLookupOr, jsObjectGet, CAPITAL_GAINS_BRACKETS_2025_table,
            capitalGainsBracketsFor, e1, e2, e3, e4]
        · by_cases e5 : s = "widow"
          · simp +decide [jsLookupOr, jsObjectGet, CAPITAL_GAINS_BRACKETS_2025_table,
              capitalGainsBracketsFor, e1, e2, e3, e4, e5]
          · simp [jsLookupOr, jsObjectGet, CAPITAL_GAINS_BRACKETS_2025_table,
              capitalGainsBracketsFor, e1, e2, e3, e4, e5, hs]

lemma jsLookupOr_seThreshold (s : String) (hs : s ∉ OBJECT_PROTOTYPE_MEMBERS) :
    jsLookupOr SE_ADDL_MEDICARE_THRESHOLDS_table s 200000 =
      JsLookup.own (seAddlMedicareThresholdFor s) := by
  by_cases e1 : s = "single"
  · simp +decide [jsLookupOr, jsObjectGet, SE_ADDL_MEDICARE_THRESHOLDS_table,
      seAddlMedicareThresholdFor, e1]
  · by_cases e2 : s = "head"
    · simp +decide [jsLookupOr, jsObjectGet, SE_ADDL_MEDICARE_THRESHOLDS_table,
        seAddlMedicareThresholdFor, e1, e2]
    · by_cases e3 : s = "married"
      · simp +decide [jsLookupOr, jsObjectGet, SE_ADDL_MEDICARE_THRESHOLDS_table,
          seAddlMedicareThresholdFor, e1, e2, e3]
      · by_cases e4 : s = "widow"
        · simp +decide [jsLookupOr, jsObjectGet, SE_ADDL_MEDICARE_THRESHOLDS_table,
            seAddlMedicareThresholdFor, e1, e2, e3, e4]
        · by_cases e5 : s = "marriedSeparate"
          · simp +decide [jsLookupOr, jsObjectGet, SE_ADDL_MEDICARE_THRESHOLDS_table,
              seAddlMedicareThresholdFor, e1, e2, e3, e4, e5]
          · simp [jsLookupOr, jsObjectGet, SE_ADDL_MEDICARE_THRESHOLDS_table,
              seAddlMedicareThresholdFor, e1, e2, e3, e4, e5, hs]

lemma jsLookupOr_niitThreshold (s : String) (hs : s ∉ OBJECT_PROTOTYPE_MEMBERS) :
    jsLookupOr NIIT_THRESHOLDS_table s 200000 = JsLookup.own (niitThresholdFor s) := by
  by_cases e1 : s = "single"
  · simp +decide [jsLookupOr, jsObjectGet, NIIT_THRESHOLDS_table, niitThresholdFor, e1]
  · by_cases e2 : s = "married"
    · simp +decide [jsLookupOr, jsObjectGet, NIIT_THRESHOLDS_table, niitThresholdFor, e1, e2]
    · by_cases e3 : s = "marriedSeparate"
      · simp +decide [jsLookupOr, jsObjectGet, NIIT_THRESHOLDS_table, niitThresholdFor,
          e1, e2, e3]
      · by_cases e4 : s = "head"
        · simp +decide [jsLookupOr, jsObjectGet, NIIT_THRESHOLDS_table, niitThresholdFor,
            e1, e2, e3, e4]
        · by_cases e5 : s = "widow"
          · simp +decide [jsLookupOr, jsObjectGet, NIIT_THRESHOLDS_table, niitThresholdFor,
              e1, e2, e3, e4, e5]
          · simp [jsLookupOr, jsObjectGet, NIIT_THRESHOLDS_table, niitThresholdFor,
              e1, e2, e3, e4, e5, hs]

/-- Claim C10 counterexample: for the filing status string 'toString' — a
string outside the recognized set, hence inside the claim's domain — the JS
standard-deduction lookup `STANDARD_DEDUCTIONS_2025[fs] || .single` finds
the truthy `Object.prototype.toString` member inherited by the object
literal, so the `||` fallback is skipped and the lookup does not produce the
single-filer value (nor any number): the per-status lookups do not all fall
back to single, and the resulting Tax Result is not the single-filer one. -/
theorem claim_C10_counterexample :
    ("toString" : String) ∉
      (["single", "married", "marriedSeparate", "head", "widow"] : List String) ∧
    jsLookupOr STANDARD_DEDUCTIONS_2025_table "toString" 15700 = JsLookup.inherited ∧
    jsLookupOr STANDARD_DEDUCTIONS_2025_table "toString" 15700 ≠
      JsLookup.own (standardDeductionFor "single") := by
  refine ⟨by decide, by decide, by decide⟩

/-- Claim C10 (amended): for a Tax Form whose filingStatus is absent, or is a
string outside the five recognized ones that is also not an inherited
`Object.prototype` member name, every per-status object lookup falls back to
the single-filer value (witnessed against the prototype-aware lookup model)
and `calculateTotalTax` returns the same Tax Result as the identical form
with filingStatus 'single'. For prototype member names such as 'toString'
the lookups return a truthy inherited member instead of falling back (see
the counterexample), so the fallback claim fails there. -/
theorem claim_C10_amended (today : SimpleDate) (form : TaxForm)
    (h : form.filingStatus = none ∨ ∃ s, form.filingStatus = some s ∧
      s ∉ (["single", "married", "marriedSeparate", "head", "widow"] : List String) ∧
      s ∉ OBJECT_PROTOTYPE_MEMBERS) :
    (∀ s, form.filingStatus = some s →
      jsLookupOr TAX_BRACKETS_2025_table s TAX_BRACKETS_2025_single =
        JsLookup.own (taxBracketsFor s) ∧
      jsLookupOr STANDARD_DEDUCTIONS_2025_table s 15700 =
        JsLookup.own (standardDeductionFor s) ∧
      jsLookupOr CAPITAL_GAINS_BRACKETS_2025_table s CAPITAL_GAINS_BRACKETS_2025_single =
        JsLookup.own (capitalGainsBracketsFor s) ∧
      jsLookupOr SE_ADDL_MEDICARE_THRESHOLDS_table s 200000 =
        JsLookup.own (seAddlMedicareThresholdFor s) ∧
      jsLookupOr NIIT_THRESHOLDS_table s 200000 =
        JsLookup.own (niitThresholdFor s)) ∧
    calculateTotalTax today form =
      calculateTotalTax today { form with filingStatus := some "single" } := by
  have hsingle : ("single" : String) ≠ "" := by decide
  constructor
  · intro s hsome
    rcases h with hnone | ⟨s0, hsome0, _, hproto0⟩
    · rw [hnone] at hsome
      cases hsome
    · rw [hsome0] at hsome
      injection hsome with hss
      subst hss
      exact ⟨jsLookupOr_taxBrackets s0 hproto0, jsLookupOr_standardDeduction s0 hproto0,
        jsLookupOr_capitalGains s0 hproto0, jsLookupOr_seThreshold s0 hproto0,
        jsLookupOr_niitThreshold s0 hproto0⟩
  rcases h with hnone | ⟨s, hsome, hns, _⟩
  · have hfs : filingStatusOf form = "single" := by
      unfold filingStatusOf
      rw [hnone]
    exact calculateTotalTax_status_congr today form "single" hsingle
      (by rw [hfs]) (by rw [hfs]) (by rw [hfs]) (by rw [hfs]) (by rw [hfs]) (by rw [hfs])
      (fun inc => by rw [hfs]) (fun g => by rw [hfs])
  · simp only [List.mem_cons, List.not_mem_nil, or_false, not_or] at hns
    obtain ⟨hn1, hn2, hn3, hn4, hn5⟩ := hns
    by_cases hemp : s = ""
    · have hfs : filingStatusOf form = "single" := by
        unfold filingStatusOf
        rw [hsome]
        show (if s = "" then "single" else s) = "single"
        rw [if_pos hemp]
      exact calculateTotalTax_status_congr today form "single" hsingle
        (by rw [hfs]) (by rw [hfs]) (by rw [hfs]) (by rw [hfs]) (by rw [hfs]) (by rw [hfs])
        (fun inc => by rw [hfs]) (fun g => by rw [hfs])
    · have hfs : filingStatusOf form = s := by
        unfold filingStatusOf
        rw [hsome]
        show (if s = "" then "single" else s) = s
        rw [if_neg hemp]
      refine calculateTotalTax_status_congr today form "single" hsingle ?_ ?_ ?_ ?_ ?_ ?_
        (fun inc => ?_) (fun g => ?_)
      · rw [hfs]; exact taxBracketsFor_default hn2 hn3 hn4 hn5
      · rw [hfs]; exact standardDeductionFor_default hn2 hn3 hn4 hn5
      · rw [hfs]; exact capitalGainsBracketsFor_default hn2 hn3 hn4 hn5
      · rw [hfs]; exact seAddlMedicareThresholdFor_default hn2 hn3 hn4 hn5
      · rw [hfs]; exact niitThresholdFor_default hn2 hn3 hn4 hn5
      · rw [hfs]; exact capLossLimitFor_default hn3
      · rw [hfs]; exact getPhaseOutPct_default hn2 inc
      · rw [hfs]; exact getSaltCap_default hn3 g

/-- Witness for claim C10 (amended) on a concrete unrecognized,
non-prototype filing status. -/
theorem claim_C10_witness :
    (formWeirdStatus.filingStatus = some "headOfHousehold" ∧
      ("headOfHousehold" : String) ∉
        (["single", "married", "marriedSeparate", "head", "widow"] : List String) ∧
      ("headOfHousehold" : String) ∉ OBJECT_PROTOTYPE_MEMBERS) ∧
    jsLookupOr STANDARD_DEDUCTIONS_2025_table "headOfHousehold" 15700 =
      JsLookup.own (standardDeductionFor "headOfHousehold") ∧
    calculateTotalTax d0 formWeirdStatus =
      calculateTotalTax d0 { formWeirdStatus with filingStatus := some "single" } := by
  have h := claim_C10_amended d0 formWeirdStatus
    (Or.inr ⟨"headOfHousehold", rfl, by decide, by decide⟩)
  exact ⟨⟨rfl, by decide, by decide⟩, (h.1 "headOfHousehold" rfl).2.1, h.2⟩

/-! ## Claim C6 -/

lemma chain_threshFrom {p : ℚ × ℚ} {l : List (ℚ × ℚ)}
    (h : List.Chain (fun p q : ℚ × ℚ => p.1 < q.1) p l) : ThreshChainFrom p.1 l := by
  induction h with
  | nil => trivial
  | @cons a b l' hr hc ih =>
    obtain ⟨L, r⟩ := b
    exact ⟨hr, ih⟩

lemma chain_ratesFrom {p : ℚ × ℚ} {l : List (ℚ × ℚ)}
    (h : List.Chain (fun p q : ℚ × ℚ => p.2 ≤ q.2) p l) : RatesChainFrom p.2 l := by
  induction h with
  | nil => trivial
  | @cons a b l' hr hc ih =>
    obtain ⟨L, r⟩ := b
    exact ⟨hr, ih⟩

lemma threshChainFrom_lt : ∀ {l : List (ℚ × ℚ)} {a : ℚ},
    ThreshChainFrom a l → ∀ p ∈ l, a < p.1 := by
  intro l
  induction l with
  | nil => intro a _ p hp; cases hp
  | cons head tail ih =>
    obtain ⟨L, r⟩ := head
    intro a h p hp
    obtain ⟨h1, h2⟩ := h
    rcases List.mem_cons.mp hp with rfl | hp'
    · exact h1
    · exact lt_trans h1 (ih h2 p hp')

lemma bracketSum_zero : ∀ (l : List (ℚ × ℚ)) (income : ℚ),
    (∀ p ∈ l, income ≤ p.1) → bracketSum income l = 0 := by
  intro l
  induction l with
  | nil => intro income _; rfl
  | cons head tail ih =>
    obtain ⟨L, r⟩ := head
    intro income h
    have hL : income ≤ L := h (L, r) (List.mem_cons_self _ _)
    cases tail with
    | nil =>
      show r * max 0 (income - L) = 0
      rw [max_eq_left (by linarith)]
      ring
    | cons head2 tail2 =>
      obtain ⟨L2, r2⟩ := head2
      show r * max 0 (min income L2 - L) + bracketSum income ((L2, r2) :: tail2) = 0
      have h2 : ∀ p ∈ (L2, r2) :: tail2, income ≤ p.1 :=
        fun p hp => h p (List.mem_cons_of_mem _ hp)
      have hm : min income L2 - L ≤ 0 := by
        have := min_le_left income L2
        linarith
      rw [ih income h2, max_eq_left hm]
      ring

lemma bracketLoop_eq_bracketSum : ∀ (l : List (ℚ × ℚ)) (L r income : ℚ),
    ThreshChainFrom L l → L < income →
    bracketLoop income ((L, r) :: l) = bracketSum income ((L, r) :: l) := by
  intro l
  induction l with
  | nil =>
    intro L r income _ hLx
    show (income - L) * r = r * max 0 (income - L)
    rw [max_eq_right (by linarith)]
    ring
  | cons head tail ih =>
    obtain ⟨L2, r2⟩ := head
    intro L r income hchain hLx
    obtain ⟨hLL2, hchain2⟩ := hchain
    show (if L2 < income then (L2 - L) * r + bracketLoop income ((L2, r2) :: tail)
        else (income - L) * r) =
      r * max 0 (min income L2 - L) + bracketSum income ((L2, r2) :: tail)
    by_cases h2 : L2 < income
    · rw [if_pos h2, ih L2 r2 income hchain2 h2, min_eq_right h2.le,
        max_eq_right (by linarith)]
      ring
    · have hle : income ≤ L2 := le_of_not_lt h2
      have hall : ∀ p ∈ (L2, r2) :: tail, income ≤ p.1 := by
        intro p hp
        rcases List.mem_cons.mp hp with rfl | hp'
        · exact hle
        · exact le_trans hle (le_of_lt (threshChainFrom_lt hchain2 p hp'))
      rw [if_neg h2, bracketSum_zero _ income hall, min_eq_left hle,
        max_eq_right (by linarith)]
      ring

lemma clip_decompose (income L L2 : ℚ) (h : L ≤ L2) :
    max 0 (min income L2 - L) = max 0 (income - L) - max 0 (income - L2) := by
  rcases le_total income L2 with hc | hc
  · rw [min_eq_left hc, max_eq_left (sub_nonpos.mpr hc)]
    ring
  · rw [min_eq_right hc, max_eq_right (sub_nonneg.mpr h),
      max_eq_right (sub_nonneg.mpr (le_trans h hc)), max_eq_right (sub_nonneg.mpr hc)]
    ring

lemma bracketSum_eq_hinge : ∀ (l : List (ℚ × ℚ)) (L r income : ℚ),
    ThreshChainFrom L l →
    bracketSum income ((L, r) :: l) = r * max 0 (income - L) + hingeForm income r l := by
  intro l
  induction l with
  | nil =>
    intro L r income _
    show r * max 0 (income - L) = r * max 0 (income - L) + 0
    ring
  | cons head tail ih =>
    obtain ⟨L2, r2⟩ := head
    intro L r income hchain
    obtain ⟨hLL2, hchain2⟩ := hchain
    show r * max 0 (min income L2 - L) + bracketSum income ((L2, r2) :: tail) =
      r * max 0 (income - L) + ((r2 - r) * max 0 (income - L2) + hingeForm income r2 tail)
    rw [ih L2 r2 income hchain2, clip_decompose income L L2 hLL2.le]
    ring

lemma hingeForm_zero : ∀ (l : List (ℚ × ℚ)) (prev income : ℚ),
    (∀ p ∈ l, income ≤ p.1) → hingeForm income prev l = 0 := by
  intro l
  induction l with
  | nil => intro prev income _; rfl
  | cons head tail ih =>
    obtain ⟨L, r⟩ := head
    intro prev income h
    have hL : income ≤ L := h (L, r) (List.mem_cons_self _ _)
    show (r - prev) * max 0 (income - L) + hingeForm income r tail = 0
    rw [max_eq_left (by linarith), ih r income (fun p hp => h p (List.mem_cons_of_mem _ hp))]
    ring

lemma hinge_chord_single (L x y : ℚ) (hL : 0 ≤ L) (hx : 0 < x) (hxy : x ≤ y) :
    y * max 0 (x - L) ≤ x * max 0 (y - L) := by
  rcases le_total x L with hc | hc
  · rw [max_eq_left (sub_nonpos.mpr hc)]
    have h0 : (0:ℚ) ≤ max 0 (y - L) := le_max_left _ _
    nlinarith
  · rw [max_eq_right (sub_nonneg.mpr hc), max_eq_right (sub_nonneg.mpr (le_trans hc hxy))]
    nlinarith

lemma hingeForm_chord : ∀ (l : List (ℚ × ℚ)) (prev x y : ℚ),
    RatesChainFrom prev l → (∀ p ∈ l, 0 ≤ p.1) → 0 < x → x ≤ y →
    y * hingeForm x prev l ≤ x * hingeForm y prev l := by
  intro l
  induction l with
  | nil => intro prev x y _ _ _ _; show y * 0 ≤ x * 0; simp
  | cons head tail ih =>
    obtain ⟨L, r⟩ := head
    intro prev x y hrates hpos hx hxy
    obtain ⟨hpr, hrates2⟩ := hrates
    have hL : 0 ≤ L := hpos (L, r) (List.mem_cons_self _ _)
    have hpos2 : ∀ p ∈ tail, 0 ≤ p.1 := fun p hp => hpos p (List.mem_cons_of_mem _ hp)
    have hkey := hinge_chord_single L x y hL hx hxy
    have hc : 0 ≤ r - prev := sub_nonneg.mpr hpr
    have hterm : y * ((r - prev) * max 0 (x - L)) ≤ x * ((r - prev) * max 0 (y - L)) := by
      have hmul := mul_le_mul_of_nonneg_left hkey hc
      nlinarith [hmul]
    have hih := ih r x y hrates2 hpos2 hx hxy
    show y * ((r - prev) * max 0 (x - L) + hingeForm x r tail) ≤
      x * ((r - prev) * max 0 (y - L) + hingeForm y r tail)
    rw [mul_add, mul_add]
    exact add_le_add hterm hih

lemma abs_clip_sub (a b : ℚ) : |max 0 a - max 0 b| ≤ |a - b| := by
  rw [max_comm 0 a, max_comm 0 b]
  exact abs_max_sub_max_le_abs a b 0

lemma hingeBound_nonneg : ∀ (l : List (ℚ × ℚ)) (prev : ℚ), 0 ≤ hingeBound prev l := by
  intro l
  induction l with
  | nil =>
    intro prev
    show (0:ℚ) ≤ 0
    norm_num
  | cons head tail ih =>
    obtain ⟨L, r⟩ := head
    intro prev
    show 0 ≤ |r - prev| + hingeBound r tail
    have := ih r
    have := abs_nonneg (r - prev)
    linarith

lemma hingeForm_lip : ∀ (l : List (ℚ × ℚ)) (prev x y : ℚ),
    |hingeForm x prev l - hingeForm y prev l| ≤ hingeBound prev l * |x - y| := by
  intro l
  induction l with
  | nil => intro prev x y; show |(0:ℚ) - 0| ≤ 0 * |x - y|; simp
  | cons head tail ih =>
    obtain ⟨L, r⟩ := head
    intro prev x y
    show |((r - prev) * max 0 (x - L) + hingeForm x r tail) -
        ((r - prev) * max 0 (y - L) + hingeForm y r tail)| ≤
      (|r - prev| + hingeBound r tail) * |x - y|
    have h1 : |(r - prev) * max 0 (x - L) - (r - prev) * max 0 (y - L)| ≤
        |r - prev| * |x - y| := by
      rw [← mul_sub, abs_mul]
      refine mul_le_mul_of_nonneg_left ?_ (abs_nonneg _)
      have hcl := abs_clip_sub (x - L) (y - L)
      have h3 : x - L - (y - L) = x - y := by ring
      rw [h3] at hcl
      exact hcl
    have h2 := ih r x y
    have h4 : ((r - prev) * max 0 (x - L) + hingeForm x r tail) -
        ((r - prev) * max 0 (y - L) + hingeForm y r tail) =
      ((r - prev) * max 0 (x - L) - (r - prev) * max 0 (y - L)) +
        (hingeForm x r tail - hingeForm y r tail) := by ring
    rw [h4]
    refine le_trans (abs_add _ _) ?_
    rw [add_mul]
    exact add_le_add h1 h2

lemma calculateBracketTax_eq_hinge (r0 : ℚ) (tail : List (ℚ × ℚ))
    (hth : ThreshChainFrom 0 tail) (x : ℚ) :
    calculateBracketTax x ((0, r0) :: tail) =
      max 0 (r0 * max 0 (x - 0) + hingeForm x r0 tail) := by
  by_cases hx : x ≤ 0
  · unfold calculateBracketTax
    rw [if_pos hx]
    have h1 : max 0 (x - 0) = 0 := max_eq_left (by linarith)
    have h2 : hingeForm x r0 tail = 0 :=
      hingeForm_zero tail r0 x
        (fun p hp => le_trans hx (le_of_lt (threshChainFrom_lt hth p hp)))
    rw [h1, h2]
    norm_num
  · have hx' : 0 < x := lt_of_not_le hx
    unfold calculateBracketTax
    rw [if_neg hx, bracketLoop_eq_bracketSum tail 0 r0 x hth hx',
      bracketSum_eq_hinge tail 0 r0 x hth]

/-- Claim C6: for every bracket schedule with strictly increasing thresholds
starting at 0 and non-decreasing rates, `calculateBracketTax` is monotonically
non-decreasing in the income, and at every bracket boundary it is continuous
(an epsilon-delta statement; in fact a Lipschitz bound holds). -/
theorem claim_C6 (r0 : ℚ) (tail : List (ℚ × ℚ))
    (hinc : List.Chain (fun p q : ℚ × ℚ => p.1 < q.1) (0, r0) tail)
    (hrate : List.Chain (fun p q : ℚ × ℚ => p.2 ≤ q.2) (0, r0) tail) :
    (∀ x y : ℚ, x ≤ y →
      calculateBracketTax x ((0, r0) :: tail) ≤ calculateBracketTax y ((0, r0) :: tail)) ∧
    (∀ p ∈ (0, r0) :: tail, ∀ ε : ℚ, 0 < ε → ∃ δ : ℚ, 0 < δ ∧ ∀ x : ℚ,
      |x - p.1| < δ →
      |calculateBracketTax x ((0, r0) :: tail) -
        calculateBracketTax p.1 ((0, r0) :: tail)| < ε) := by
  have hth : ThreshChainFrom 0 tail := chain_threshFrom hinc
  have hrt : RatesChainFrom r0 tail := chain_ratesFrom hrate
  have hpos : ∀ p ∈ tail, 0 ≤ p.1 :=
    fun p hp => le_of_lt (threshChainFrom_lt hth p hp)
  have hK : 0 ≤ |r0| + hingeBound r0 tail :=
    add_nonneg (abs_nonneg _) (hingeBound_nonneg tail r0)
  have hlip : ∀ u v : ℚ,
      |calculateBracketTax u ((0, r0) :: tail) - calculateBracketTax v ((0, r0) :: tail)| ≤
        (|r0| + hingeBound r0 tail) * |u - v| := by
    intro u v
    rw [calculateBracketTax_eq_hinge r0 tail hth u, calculateBracketTax_eq_hinge r0 tail hth v]
    refine le_trans (abs_clip_sub _ _) ?_
    have h1 : |r0 * max 0 (u - 0) - r0 * max 0 (v - 0)| ≤ |r0| * |u - v| := by
      rw [← mul_sub, abs_mul]
      refine mul_le_mul_of_nonneg_left ?_ (abs_nonneg _)
      have hcl := abs_clip_sub (u - 0) (v - 0)
      have h3 : u - 0 - (v - 0) = u - v := by ring
      rw [h3] at hcl
      exact hcl
    have h2 := hingeForm_lip tail r0 u v
    have h4 : (r0 * max 0 (u - 0) + hingeForm u r0 tail) -
        (r0 * max 0 (v - 0) + hingeForm v r0 tail) =
      (r0 * max 0 (u - 0) - r0 * max 0 (v - 0)) +
        (hingeForm u r0 tail - hingeForm v r0 tail) := by ring
    rw [h4]
    refine le_trans (abs_add _ _) ?_
    rw [add_mul]
    exact add_le_add h1 h2
  constructor
  · intro x y hxy
    by_cases hx : x ≤ 0
    · have hz : calculateBracketTax x ((0, r0) :: tail) = 0 := by
        unfold calculateBracketTax
        rw [if_pos hx]
      rw [hz]
      exact calculateBracketTax_nonneg y _
    · have hx' : 0 < x := lt_of_not_le hx
      have hy' : 0 < y := lt_of_lt_of_le hx' hxy
      rw [calculateBracketTax_eq_hinge r0 tail hth x,
        calculateBracketTax_eq_hinge r0 tail hth y, sub_zero, sub_zero,
        max_eq_right hx'.le, max_eq_right hy'.le]
      have hchord : y * (r0 * x + hingeForm x r0 tail) ≤
          x * (r0 * y + hingeForm y r0 tail) := by
        have h1 := hingeForm_chord tail r0 x y hrt hpos hx' hxy
        nlinarith [h1]
      by_cases hfx : r0 * x + hingeForm x r0 tail ≤ 0
      · rw [max_eq_left hfx]
        exact le_max_left _ _
      · have hfx' : 0 < r0 * x + hingeForm x r0 tail := lt_of_not_le hfx
        have hfy : r0 * x + hingeForm x r0 tail ≤ r0 * y + hingeForm y r0 tail := by
          have hxx : x * (r0 * x + hingeForm x r0 tail) ≤
              y * (r0 * x + hingeForm x r0 tail) :=
            mul_le_mul_of_nonneg_right hxy hfx'.le
          exact le_of_mul_le_mul_left (le_trans hxx hchord) hx'
        exact max_le_max le_rfl hfy
  · intro p _ ε hε
    refine ⟨ε / (|r0| + hingeBound r0 tail + 1), by positivity, fun x hx => ?_⟩
    refine lt_of_le_of_lt (hlip x p.1) ?_
    calc (|r0| + hingeBound r0 tail) * |x - p.1|
        ≤ (|r0| + hingeBound r0 tail) * (ε / (|r0| + hingeBound r0 tail + 1)) :=
          mul_le_mul_of_nonneg_left hx.le hK
      _ < ε := by
          rw [← mul_div_assoc, div_lt_iff₀ (by linarith)]
          nlinarith

/-- Witness for claim C6: the 2025 single schedule satisfies the hypotheses,
and monotonicity holds at a concrete pair of incomes. -/
theorem claim_C6_witness :
    calculateBracketTax 50000 TAX_BRACKETS_2025_single ≤
      calculateBracketTax 60000 TAX_BRACKETS_2025_single :=
  (claim_C6 0.10
      [(11925, 0.12), (48475, 0.22), (103350, 0.24),
       (197300, 0.32), (250525, 0.35), (626350, 0.37)]
      (by norm_num [List.chain_cons]) (by norm_num [List.chain_cons])).1
    50000 60000 (by norm_num)

end TaxLogic
